import Mathlib

/-!
# Partial-update builder and listing filters

A shallow embedding of `helpers/sql.js`, `models/company.js` and `models/jobs.js`.

* JavaScript values are the type `JSVal`; `JSVal.truthy`, `JSVal.toStr` and `Number`
  are the language's ToBoolean, ToString and ToNumber conversions.
* A JavaScript number is the double `JSNum`; rounding a literal to the nearest double, the
  comparison of doubles and the shortest decimal text of a double are computed exactly, on
  natural numbers.
* A JavaScript object that is only enumerated (`Object.keys`, `Object.values`) is the list of
  its own enumerable properties in enumeration order; an object that is only read through
  `obj[key]` is its property-read function `String → JSVal`.
* A model method takes the store as a function from a `db.query` call to what the call does,
  rows returned or an error thrown, and yields a `Run`: the calls it made, in order, and how
  it ended.
-/

set_option autoImplicit false

/-! ## JavaScript numbers -/

/-- A JavaScript number, that is an IEEE-754 double: `NaN`, an infinity, or the finite value
`± m × 2^u`. The numbers built by `JSNum.int`, `JSNum.dec` and `Number` are in normal form:
`m < 2^53` and `-1074 ≤ u ≤ 971`, with `2^52 ≤ m` unless `u = -1074`, and a zero is `m = 0`
at `u = 0`. In normal form two numbers are the same double exactly when they are equal. -/
inductive JSNum where
  | nan
  | inf (negative : Bool)
  | fin (negative : Bool) (m : Nat) (u : Int)
  deriving DecidableEq

/-- The power `2^k` for `k ≥ 0`, and `1` for `k < 0`. A ratio is scaled by `2^k` for either
sign of `k` by multiplying one side with `pow2 k` and the other with `pow2 (-k)`. -/
def pow2 (k : Int) : Nat := 2 ^ k.toNat

/-- The power `10^k` for `k ≥ 0`, and `1` for `k < 0`. -/
def pow10 (k : Int) : Nat := 10 ^ k.toNat

/-- The number of binary digits of `n`, for `n ≤ fuel`. -/
def bitLength : Nat → Nat → Nat
  | 0, _ => 0
  | fuel + 1, n => if n = 0 then 0 else bitLength fuel (n / 2) + 1

/-- The exponent `l` with `2^l ≤ p/q < 2^(l+1)`, for `p, q > 0`. -/
def floorLog2 (p q : Nat) : Int :=
  let l0 : Int := (bitLength p p : Int) - (bitLength q q : Int)
  if q * pow2 l0 ≤ p * pow2 (-l0) then l0 else l0 - 1

/-- The double nearest to the ratio `p/q`, ties to the even significand: `some (m, u)` is
`m × 2^u` in normal form, and `none` is an overflow to infinity. The ratio is cut at the
exponent `u` of its last place, never below `-1074`, and rounded there; a significand that
rounds down to `0` is a zero, and one that rounds up to `2^53` moves to the next exponent. -/
def roundNear (p q : Nat) : Option (Nat × Int) :=
  if p = 0 then some (0, 0)
  else
    let u : Int := max (floorLog2 p q - 52) (-1074)
    let num := p * pow2 (-u)
    let den := q * pow2 u
    let m0 := num / den
    let r := num % den
    let m := if den < 2 * r ∨ (den = 2 * r ∧ m0 % 2 = 1) then m0 + 1 else m0
    if m = 0 then some (0, 0)
    else if m = 2 ^ 53 then
      if 971 < u + 1 then none else some (2 ^ 52, u + 1)
    else
      if 971 < u then none else some (m, u)

/-- The double nearest to `± p/q`. -/
def roundSigned (negative : Bool) (p q : Nat) : JSNum :=
  match roundNear p q with
  | none => .inf negative
  | some (m, u) => .fin negative m u

/-- The number an integer literal denotes: the double nearest to `n`. -/
def JSNum.int (n : Int) : JSNum :=
  roundSigned (decide (n < 0)) n.natAbs 1

/-- The number a decimal literal denotes: the double nearest to `± m × 10^e`. -/
def JSNum.dec (negative : Bool) (m : Nat) (e : Int) : JSNum :=
  roundSigned negative (m * pow10 e) (pow10 (-e))

/-- The test `m₁ × 2^u₁ < m₂ × 2^u₂`. -/
def magLt (m₁ : Nat) (u₁ : Int) (m₂ : Nat) (u₂ : Int) : Bool :=
  decide (m₁ * pow2 (u₁ - u₂) < m₂ * pow2 (u₂ - u₁))

/-- The test `m₁ × 2^u₁ = m₂ × 2^u₂`. -/
def magEq (m₁ : Nat) (u₁ : Int) (m₂ : Nat) (u₂ : Int) : Bool :=
  decide (m₁ * pow2 (u₁ - u₂) = m₂ * pow2 (u₂ - u₁))

/-- The comparison `a < b` of two numbers: false when either is `NaN`, and the two zeros
are equal. -/
def JSNum.lt : JSNum → JSNum → Bool
  | .nan, _ => false
  | _, .nan => false
  | .inf a, .inf b => a && !b
  | .inf a, .fin _ _ _ => a
  | .fin _ _ _, .inf b => !b
  | .fin false m₁ u₁, .fin false m₂ u₂ => magLt m₁ u₁ m₂ u₂
  | .fin true m₁ u₁, .fin true m₂ u₂ => magLt m₂ u₂ m₁ u₁
  | .fin true m₁ _, .fin false m₂ _ => !(m₁ == 0 && m₂ == 0)
  | .fin false _ _, .fin true _ _ => false

/-- The number of decimal digits of `n`. -/
def numDigits (n : Nat) : Nat := (Nat.toDigits 10 n).length

/-- The exponent `n` with `10^(n-1) ≤ p/q < 10^n`, for `p, q > 0`. -/
def decimalExponent (p q : Nat) : Int :=
  if q ≤ p then (numDigits (p / q) : Int)
  else
    let d := numDigits (q / p)
    if q ≤ p * 10 ^ (d - 1) then 1 - ((d - 1 : Nat) : Int) else 1 - (d : Int)

/-- The decimal `s × 10^(n-k)` rounds to the double `m × 2^u`. -/
def roundsTo (s : Nat) (n : Int) (k : Nat) (m : Nat) (u : Int) : Bool :=
  match roundNear (s * pow10 (n - k)) (pow10 (k - n)) with
  | none => false
  | some (m', u') => magEq m' u' m u

/-- Number::toString, the choice of digits: for the double `m × 2^u = p/q` with
`10^(n-1) ≤ p/q < 10^n`, the least number of digits `k` among the candidates for which some
`k`-digit `s` has `s × 10^(n-k)` round to the double, and that `s`, the one nearest to the
double when two do. -/
def shortest (p q : Nat) (n : Int) (m : Nat) (u : Int) : List Nat → Option (Nat × Nat)
  | [] => none
  | k :: ks =>
    let tp := p * pow10 (k - n)
    let tq := q * pow10 (n - k)
    let lo := tp / tq
    let hi := lo + 1
    let okLo := roundsTo lo n k m u
    let okHi := roundsTo hi n k m u
    if okLo && okHi then
      let dLo := tp - lo * tq
      let dHi := hi * tq - tp
      if dLo < dHi then some (lo, k)
      else if dHi < dLo then some (hi, k)
      else if lo % 2 = 0 then some (lo, k) else some (hi, k)
    else if okLo then some (lo, k)
    else if okHi then some (hi, k)
    else shortest p q n m u ks

/-- A run of `k` zeros. -/
def zeros (k : Nat) : String := String.mk (List.replicate k '0')

/-- Number::toString, the layout of the digits `ds` of `s` for the exponent `n`: plain
digits with trailing zeros up to `10^21`, a decimal point inside the digits, leading
`0.00`, or the exponent form `d.ddde±x`. -/
def formatDigits (ds : List Char) (n : Int) : String :=
  let k : Int := ds.length
  if k ≤ n ∧ n ≤ 21 then String.mk ds ++ zeros (n - k).toNat
  else if 0 < n ∧ n ≤ 21 then
    String.mk (ds.take n.toNat) ++ "." ++ String.mk (ds.drop n.toNat)
  else if -6 < n ∧ n ≤ 0 then "0." ++ zeros (-n).toNat ++ String.mk ds
  else
    let ex := n - 1
    let sign := if 0 < ex then "+" else "-"
    match ds with
    | [d] => String.mk [d] ++ "e" ++ sign ++ toString ex.natAbs
    | d :: rest => String.mk [d] ++ "." ++ String.mk rest ++ "e" ++ sign ++ toString ex.natAbs
    | [] => ""

/-- The text of the positive double `m × 2^u`: its shortest digits, of which 17 always
suffice, laid out. -/
def renderMag (m : Nat) (u : Int) : String :=
  if m = 0 then "0"
  else
    let p := m * pow2 u
    let q := pow2 (-u)
    let n := decimalExponent p q
    match shortest p q n m u (List.range' 1 17) with
    | none => ""
    | some (s, k) =>
      if s = 10 ^ k then formatDigits (Nat.toDigits 10 (10 ^ (k - 1))) (n + 1)
      else formatDigits (Nat.toDigits 10 s) n

/-- Number::toString, radix 10. -/
def JSNum.toStr : JSNum → String
  | .nan => "NaN"
  | .inf false => "Infinity"
  | .inf true => "-Infinity"
  | .fin negative m u =>
    if m = 0 then "0" else (if negative then "-" else "") ++ renderMag m u

/-! ## JavaScript values -/

/-- A JavaScript value. `object text` stands for any object (plain object, array, function)
whose `valueOf` is the inherited one; `text` is what its `toString` method returns. -/
inductive JSVal where
  | undefined
  | null
  | bool (b : Bool)
  | num (n : JSNum)
  | str (s : String)
  | object (text : String)
  deriving DecidableEq

/-- ToBoolean: what `if (v)`, `v ? a : b`, `v || w` and `v && w` test. A number is falsy when
it is `NaN` or a zero. -/
def JSVal.truthy : JSVal → Bool
  | .undefined => false
  | .null => false
  | .bool b => b
  | .num .nan => false
  | .num (.inf _) => true
  | .num (.fin _ m _) => m != 0
  | .str s => s != ""
  | .object _ => true

/-- ToString: what a template literal does to an interpolated value. -/
def JSVal.toStr : JSVal → String
  | .undefined => "undefined"
  | .null => "null"
  | .bool true => "true"
  | .bool false => "false"
  | .num n => n.toStr
  | .str s => s
  | .object text => text

/-- The operator `a || b`. -/
def JSVal.orElse (a b : JSVal) : JSVal :=
  if a.truthy then a else b

/-- An enumerated object: own enumerable string-keyed properties, in enumeration order. -/
abbrev JSObject := List (String × JSVal)

/-- `Object.keys(o)`. -/
def Object.keys (o : JSObject) : List String := o.map Prod.fst

/-- `Object.values(o)`. -/
def Object.values (o : JSObject) : List JSVal := o.map Prod.snd

/-- The names of the function-valued properties every object literal inherits from
`Object.prototype`, `constructor` apart. -/
def objectPrototypeMethods : List String :=
  ["__defineGetter__", "__defineSetter__", "hasOwnProperty", "__lookupGetter__",
   "__lookupSetter__", "isPrototypeOf", "propertyIsEnumerable", "toString", "valueOf",
   "toLocaleString"]

/-- Reading `key` from `Object.prototype` through an object literal: built-in functions are
rendered the way V8 prints them. -/
def objectPrototypeGet (key : String) : JSVal :=
  if key = "__proto__" then .object "[object Object]"
  else if key = "constructor" then .object "function Object() \x7b [native code] \x7d"
  else if key ∈ objectPrototypeMethods then
    .object ("function " ++ key ++ "() \x7b [native code] \x7d")
  else .undefined

/-- The property read `obj[key]` on the object literal with the given own properties: the own
property when there is one, else what `Object.prototype` gives. -/
def objectLiteral (own : JSObject) (key : String) : JSVal :=
  match own.lookup key with
  | some v => v
  | none => objectPrototypeGet key

/-! ## Errors, store calls, runs -/

/-- What an embedded function can throw: a `BadRequestError` or a `NotFoundError` of
`expressError`, which the models raise themselves, or the error with which the store rejects
a `db.query` call, which no model method catches. -/
inductive Thrown where
  | badRequest (message : String)
  | notFound (message : String)
  | store (message : String)
  deriving DecidableEq

/-- One call `db.query(text, values)`; `values` is empty when no second argument is passed. -/
structure DbCall where
  text : String
  values : List JSVal
  deriving DecidableEq

/-- A row returned by the store. -/
abbrev Row := JSObject

/-- The store: for each call, the rows `db.query` resolves with, or the message of the error
it rejects with, as for a statement the database cannot parse or execute. -/
abbrev Db := DbCall → Except String (List Row)

/-- The expression `(await db.query(text, values)).rows` in a model method: the rows, or the
store's error thrown out of the method. -/
def dbQuery (db : Db) (call : DbCall) : Except Thrown (List Row) :=
  match db call with
  | .ok rows => .ok rows
  | .error message => .error (.store message)

/-- What a model method did: the `db.query` calls it made, in order, and its outcome
(`.error e` when it threw `e`, `.ok v` when it returned `v`). -/
structure Run (α : Type) where
  calls : List DbCall
  result : Except Thrown α

/-! ## helpers/sql.js -/

/-- The object `sqlForPartialUpdate` returns. -/
structure SqlUpdate where
  setCols : String
  values : List JSVal
  deriving DecidableEq

/-- The column an assignment names: the interpolation of `jsToSql[colName] || colName`. -/
def columnName (jsToSql : String → JSVal) (colName : String) : String :=
  ((jsToSql colName).orElse (.str colName)).toStr

/-- The array `cols` of `sqlForPartialUpdate`: one assignment per key, `idx` counting from 0. -/
def cols (keys : List String) (jsToSql : String → JSVal) : List String :=
  keys.mapIdx fun idx colName =>
    "\"" ++ columnName jsToSql colName ++ "\"=$" ++ toString (idx + 1)

/-- The function `sqlForPartialUpdate(dataToUpdate, jsToSql)`. -/
def sqlForPartialUpdate (dataToUpdate : JSObject) (jsToSql : String → JSVal) :
    Except Thrown SqlUpdate :=
  let keys := Object.keys dataToUpdate
  if keys.length = 0 then .error (.badRequest "No data")
  else
    .ok { setCols := ", ".intercalate (cols keys jsToSql),
          values := Object.values dataToUpdate }

/-! ## models/jobs.js and models/company.js: update -/

/-- The method `Job.update(id, data)`. -/
def Job.update (db : Db) (id : JSVal) (data : JSObject) : Run Row :=
  match sqlForPartialUpdate data (objectLiteral []) with
  | .error err => ⟨[], .error err⟩
  | .ok res =>
    let idVarIdx := "$" ++ toString (res.values.length + 1)
    let querySql := "UPDATE jobs SET " ++ res.setCols ++ "\n        WHERE id = " ++ idVarIdx
      ++ "\n        RETURNING id,\n                  title,\n                  salary, "
      ++ "\n                  equity, \n                  company_handle AS \"companyHandle\""
    let call : DbCall := ⟨querySql, res.values ++ [id]⟩
    match dbQuery db call with
    | .error err => ⟨[call], .error err⟩
    | .ok rows =>
      match rows.head? with
      | none => ⟨[call], .error (.notFound ("No job: " ++ id.toStr))⟩
      | some job => ⟨[call], .ok job⟩

/-- The method `Company.update(handle, data)`. -/
def Company.update (db : Db) (handle : JSVal) (data : JSObject) : Run Row :=
  match sqlForPartialUpdate data
      (objectLiteral [("numEmployees", .str "num_employees"), ("logoUrl", .str "logo_url")]) with
  | .error err => ⟨[], .error err⟩
  | .ok res =>
    let handleVarIdx := "$" ++ toString (res.values.length + 1)
    let querySql := "UPDATE companies \n                      SET " ++ res.setCols
      ++ " \n                      WHERE handle = " ++ handleVarIdx
      ++ " \n                      RETURNING handle, \n                                name, "
      ++ "\n                                description, "
      ++ "\n                                num_employees AS \"numEmployees\", "
      ++ "\n                                logo_url AS \"logoUrl\""
    let call : DbCall := ⟨querySql, res.values ++ [handle]⟩
    match dbQuery db call with
    | .error err => ⟨[call], .error err⟩
    | .ok rows =>
      match rows.head? with
      | none => ⟨[call], .error (.notFound ("No company: " ++ handle.toStr))⟩
      | some company => ⟨[call], .ok company⟩

/-! ## ToNumber -/

/-- The characters StringToNumber strips from both ends: white space and line terminators. -/
def isStrWhiteSpaceChar (c : Char) : Bool :=
  let n := c.toNat
  n == 0x09 || n == 0x0A || n == 0x0B || n == 0x0C || n == 0x0D || n == 0x20 || n == 0xA0
    || n == 0x1680 || (0x2000 ≤ n && n ≤ 0x200A) || n == 0x2028 || n == 0x2029 || n == 0x202F
    || n == 0x205F || n == 0x3000 || n == 0xFEFF

/-- The value of a digit of the given radix, letters in either case; `none` for any other
character. -/
def digitValue? (radix : Nat) (c : Char) : Option Nat :=
  let n := c.toNat
  let v : Option Nat :=
    if 48 ≤ n ∧ n ≤ 57 then some (n - 48)
    else if 97 ≤ n ∧ n ≤ 122 then some (n - 87)
    else if 65 ≤ n ∧ n ≤ 90 then some (n - 55)
    else none
  match v with
  | some d => if d < radix then some d else none
  | none => none

/-- The value of a non-empty run of digits of the given radix; `none` for anything else. -/
def digitsValue? (radix : Nat) (cs : List Char) : Option Nat :=
  if cs = [] then none
  else
    cs.foldl
      (fun acc c =>
        match acc, digitValue? radix c with
        | some n, some d => some (radix * n + d)
        | _, _ => none)
      (some 0)

/-- The exponent a decimal literal ends with: nothing, or `e` or `E` and an optionally signed
run of decimal digits; `none` for anything else. -/
def exponentPart? (cs : List Char) : Option Int :=
  match cs with
  | [] => some 0
  | c :: rest =>
    if c = 'e' ∨ c = 'E' then
      match rest with
      | '+' :: ds => (digitsValue? 10 ds).map Int.ofNat
      | '-' :: ds => (digitsValue? 10 ds).map fun n => -(n : Int)
      | ds => (digitsValue? 10 ds).map Int.ofNat
    else none

/-- StrUnsignedDecimalLiteral under a sign: `Infinity`, or decimal digits with an optional
fraction and exponent (`12`, `12.`, `12.5`, `.5`, each with `e±x`), as the double nearest to
the decimal; any other text is `NaN`. -/
def strUnsignedDecimalLiteral (negative : Bool) (cs : List Char) : JSNum :=
  if cs = "Infinity".data then .inf negative
  else
    let intPart := cs.takeWhile Char.isDigit
    match cs.dropWhile Char.isDigit with
    | '.' :: rest =>
      let fracPart := rest.takeWhile Char.isDigit
      match digitsValue? 10 (intPart ++ fracPart), exponentPart? (rest.dropWhile Char.isDigit) with
      | some m, some ex => .dec negative m (ex - fracPart.length)
      | _, _ => .nan
    | tail =>
      match digitsValue? 10 intPart, exponentPart? tail with
      | some m, some ex => .dec negative m ex
      | _, _ => .nan

/-- NonDecimalIntegerLiteral after its prefix `0x`, `0o` or `0b`. -/
def nonDecimalIntegerLiteral (radix : Nat) (ds : List Char) : JSNum :=
  match digitsValue? radix ds with
  | some n => .int n
  | none => .nan

/-- StringToNumber: white space is stripped from both ends; the empty text is `0`; a signed
decimal literal or an unsigned hexadecimal, octal or binary integer literal is its number;
every other text is `NaN`. -/
def stringToNumber (s : String) : JSNum :=
  let cs := ((s.data.dropWhile isStrWhiteSpaceChar).reverse.dropWhile isStrWhiteSpaceChar).reverse
  match cs with
  | [] => .int 0
  | '+' :: ds => strUnsignedDecimalLiteral false ds
  | '-' :: ds => strUnsignedDecimalLiteral true ds
  | '0' :: c :: ds =>
    if c = 'x' ∨ c = 'X' then nonDecimalIntegerLiteral 16 ds
    else if c = 'o' ∨ c = 'O' then nonDecimalIntegerLiteral 8 ds
    else if c = 'b' ∨ c = 'B' then nonDecimalIntegerLiteral 2 ds
    else strUnsignedDecimalLiteral false cs
  | _ => strUnsignedDecimalLiteral false cs

/-- The call `Number(v)`: ToNumber. An object goes through its `toString` text. -/
def Number (v : JSVal) : JSNum :=
  match v with
  | .undefined => .nan
  | .null => .int 0
  | .bool true => .int 1
  | .bool false => .int 0
  | .num n => n
  | .str s => stringToNumber s
  | .object text => stringToNumber text

/-- The operator `a && b`. -/
def JSVal.andAlso (a b : JSVal) : JSVal :=
  if a.truthy then b else a

/-! ## models/company.js: findAll -/

/-- The fields `Company.findAll` reads from its query object; `undefined` is an absent field. -/
structure CompanyQuery where
  name : JSVal
  minEmployees : JSVal
  maxEmployees : JSVal
  deriving DecidableEq

/-- The constant `nameQuery`. -/
def Company.nameQuery (query : CompanyQuery) : JSVal :=
  if query.name.truthy then .str ("name LIKE '%" ++ query.name.toStr ++ "%'") else .null

/-- The constant `minEmpQuery`. -/
def Company.minEmpQuery (query : CompanyQuery) : JSVal :=
  if query.minEmployees.truthy then .str ("num_employees >= " ++ query.minEmployees.toStr)
  else .null

/-- The constant `maxEmpQuery`. -/
def Company.maxEmpQuery (query : CompanyQuery) : JSVal :=
  if query.maxEmployees.truthy then .str ("num_employees <= " ++ query.maxEmployees.toStr)
  else .null

/-- The constant `companiesResQuery`: the statement of the filtered branch. -/
def Company.companiesResQuery (query : CompanyQuery) : String :=
  let nameQuery := Company.nameQuery query
  let minEmpQuery := Company.minEmpQuery query
  let maxEmpQuery := Company.maxEmpQuery query
  "SELECT handle, \n                name, \n                description,\n\t\t\t\t"
    ++ (if (minEmpQuery.orElse maxEmpQuery).truthy then "num_employees AS \"numEmployees\","
        else "")
    ++ "\n                logo_url AS \"logoUrl\"\n            FROM companies\n\t\t\tWHERE "
    ++ (if nameQuery.truthy then nameQuery.toStr else "")
    ++ "\n\t\t\t"
    ++ (if (nameQuery.andAlso (minEmpQuery.orElse maxEmpQuery)).truthy then "AND" else "")
    ++ " "
    ++ (if minEmpQuery.truthy then minEmpQuery.toStr else "")
    ++ "\n\t\t\t"
    ++ (if (maxEmpQuery.andAlso minEmpQuery).truthy then "AND" else "")
    ++ " "
    ++ (if maxEmpQuery.truthy then maxEmpQuery.toStr else "")
    ++ "\n\t\t\tORDER BY name"

/-- The statement of the unfiltered branch of `Company.findAll`. -/
def Company.unfilteredQuery : String :=
  "SELECT handle,\n                    name,\n                    description,\n"
    ++ "                    num_employees AS \"numEmployees\",\n"
    ++ "                    logo_url AS \"logoUrl\"\n"
    ++ "             FROM companies\n             ORDER BY name"

/-- The method `Company.findAll(query = null)`; `none` is the default `null`. -/
def Company.findAll (db : Db) (query : Option CompanyQuery) : Run (List Row) :=
  match query with
  | none =>
    let call : DbCall := ⟨Company.unfilteredQuery, []⟩
    ⟨[call], dbQuery db call⟩
  | some q =>
    if ((q.name.orElse q.minEmployees).orElse q.maxEmployees).truthy then
      let call : DbCall := ⟨Company.companiesResQuery q, []⟩
      ⟨[call], dbQuery db call⟩
    else
      let call : DbCall := ⟨Company.unfilteredQuery, []⟩
      ⟨[call], dbQuery db call⟩

/-! ## models/jobs.js: findAll -/

/-- The fields `Job.findAll` reads and writes on its query object; `undefined` is an absent
field. -/
structure JobQuery where
  title : JSVal
  minSalary : JSVal
  hasEquity : JSVal
  deriving DecidableEq

/-- The query object after the two assignments of the filtered branch: `hasEquity` becomes
the boolean `query.hasEquity === "true"`, `minSalary` becomes `Number(query.minSalary)`. -/
def Job.normalized (query : JobQuery) : JobQuery :=
  { title := query.title
    minSalary := .num (Number query.minSalary)
    hasEquity := if query.hasEquity = .str "true" then .bool true else .bool false }

/-- The constant `titleQuery`, read from the query object after the assignments. -/
def Job.titleQuery (query : JobQuery) : JSVal :=
  if query.title.truthy then .str ("title LIKE '%" ++ query.title.toStr ++ "%'") else .null

/-- The constant `minSalaryQuery`, read from the query object after the assignments. -/
def Job.minSalaryQuery (query : JobQuery) : JSVal :=
  if query.minSalary.truthy then .str ("salary >= " ++ query.minSalary.toStr) else .null

/-- The constant `hasEquityQuery`, read from the query object after the assignments. -/
def Job.hasEquityQuery (query : JobQuery) : JSVal :=
  if query.hasEquity.truthy then .str "equity > 0.0" else .null

/-- The constant `jobsResQuery`, from the query object after the assignments. -/
def Job.jobsResQuery (query : JobQuery) : String :=
  let titleQuery := Job.titleQuery query
  let minSalaryQuery := Job.minSalaryQuery query
  let hasEquityQuery := Job.hasEquityQuery query
  "SELECT id, title, salary, equity, company_handle AS \"companyHandle\"\n\t\t\t\tFROM jobs"
    ++ "\n\t\t\t\tWHERE "
    ++ (if titleQuery.truthy then titleQuery.toStr else "")
    ++ "\n\t\t\t\t"
    ++ (if (titleQuery.andAlso (minSalaryQuery.orElse hasEquityQuery)).truthy then "AND" else "")
    ++ " "
    ++ (if minSalaryQuery.truthy then minSalaryQuery.toStr else "")
    ++ "\n\t\t\t\t"
    ++ (if (minSalaryQuery.andAlso hasEquityQuery).truthy then "AND" else "")
    ++ "  "
    ++ (if hasEquityQuery.truthy then hasEquityQuery.toStr else "")
    ++ "\n\t\t\t\tORDER BY salary"

/-- The statement of the unfiltered branch of `Job.findAll`. -/
def Job.unfilteredQuery : String :=
  "SELECT id, title, salary, equity, company_handle AS \"companyHandle\"\n"
    ++ "            FROM jobs\n            ORDER BY salary"

/-- The method `Job.findAll(query = null)`. The first component is the query object as the
call leaves it (the filtered branch assigns to its fields), the second what the call did. -/
def Job.findAll (db : Db) (query : Option JobQuery) : Option JobQuery × Run (List Row) :=
  match query with
  | none =>
    let call : DbCall := ⟨Job.unfilteredQuery, []⟩
    (none, ⟨[call], dbQuery db call⟩)
  | some q =>
    if ((q.title.orElse q.minSalary).orElse q.hasEquity).truthy then
      let q := Job.normalized q
      let call : DbCall := ⟨Job.jobsResQuery q, []⟩
      (some q, ⟨[call], dbQuery db call⟩)
    else
      let call : DbCall := ⟨Job.unfilteredQuery, []⟩
      (some q, ⟨[call], dbQuery db call⟩)

/-! ## Reading a statement word by word -/

/-- White space between the words of a statement. -/
def isBlank (c : Char) : Bool :=
  c == ' ' || c == '\t' || c == '\n' || c == '\r'

/-- The runs of characters between blanks, empty runs included. -/
def runs : List Char → List (List Char)
  | [] => [[]]
  | c :: cs =>
    if isBlank c then [] :: runs cs
    else
      match runs cs with
      | [] => [[c]]
      | w :: ws => (c :: w) :: ws

/-- The words of a text: its maximal runs of non-blank characters, in order. Two texts with
the same words differ in white space only. -/
def sqlWords (s : String) : List String :=
  ((runs s.data).filter fun w => !w.isEmpty).map String.mk

/-- The text is empty or begins with a blank. -/
def startsBlank (s : String) : Bool :=
  match s.data with
  | [] => true
  | c :: _ => isBlank c

/-- The text is empty or ends with a blank. -/
def endsBlank (s : String) : Bool :=
  match s.data.getLast? with
  | none => true
  | some c => isBlank c

/-- The conditions the filtered branch of `Company.findAll` emits: those of `nameQuery`,
`minEmpQuery`, `maxEmpQuery`, in this order, that are not `null`. -/
def Company.conditions (query : CompanyQuery) : List String :=
  ([Company.nameQuery query, Company.minEmpQuery query, Company.maxEmpQuery query].filter
    JSVal.truthy).map JSVal.toStr

/-- The conditions the filtered branch of `Job.findAll` emits, from the query object after the
assignments: those of `titleQuery`, `minSalaryQuery`, `hasEquityQuery`, in this order, that
are not `null`. -/
def Job.conditions (query : JobQuery) : List String :=
  ([Job.titleQuery query, Job.minSalaryQuery query, Job.hasEquityQuery query].filter
    JSVal.truthy).map JSVal.toStr

/-! ## models/jobs.js: create -/

/-- The operator `typeof v`. An object that is a function has `typeof` `"function"`, which
this embedding does not tell apart from `"object"`; the code compares `typeof` with `"string"`
and `"number"` only. -/
def typeOf : JSVal → String
  | .undefined => "undefined"
  | .null => "object"
  | .bool _ => "boolean"
  | .num _ => "number"
  | .str _ => "string"
  | .object _ => "object"

/-- The argument of `Job.create`, destructured: `undefined` is an absent field. -/
structure JobData where
  id : JSVal
  title : JSVal
  salary : JSVal
  equity : JSVal
  companyHandle : JSVal
  deriving DecidableEq

/-- The first `db.query` call of `Job.create`: the duplicate check. -/
def Job.duplicateCheckCall (data : JobData) : DbCall :=
  ⟨"SELECT id\n            FROM jobs\n            WHERE id = $1", [data.id]⟩

/-- The second `db.query` call of `Job.create`: the company lookup. -/
def Job.companyResCall (data : JobData) : DbCall :=
  ⟨"SELECT handle\n\t\t\tFROM companies\n\t\t\tWHERE handle = $1", [data.companyHandle]⟩

/-- The third `db.query` call of `Job.create`: the insertion. -/
def Job.insertCall (data : JobData) : DbCall :=
  ⟨"INSERT INTO jobs\n            (id, title, salary, equity, company_handle)\n"
      ++ "            VALUES ($1, $2, $3, $4, $5)\n"
      ++ "            RETURNING id, title, salary, equity, company_handle AS \"companyHandle\"",
    [data.id, data.title, data.salary, data.equity, data.companyHandle]⟩

/-- The method `Job.create({ id, title, salary, equity, companyHandle })`. It returns
`result.rows[0]`, which is `undefined` (`none`) when the insertion returns no row. A comparison
of a value with a number literal compares `Number` of the value. -/
def Job.create (db : Db) (data : JobData) : Run (Option Row) :=
  match dbQuery db (Job.duplicateCheckCall data) with
  | .error err => ⟨[Job.duplicateCheckCall data], .error err⟩
  | .ok duplicateCheck =>
    if duplicateCheck.head?.isSome then
      ⟨[Job.duplicateCheckCall data], .error (.badRequest ("Duplicate job: " ++ data.id.toStr))⟩
    else if typeOf data.title != "string" then
      ⟨[Job.duplicateCheckCall data],
        .error (.badRequest ("Invalid title: " ++ data.title.toStr))⟩
    else if typeOf data.salary != "number" || (Number data.salary).lt (.int 0) then
      ⟨[Job.duplicateCheckCall data],
        .error (.badRequest ("Invalid salary: " ++ data.salary.toStr))⟩
    else if typeOf data.equity != "number" || (Number data.equity).lt (.int 0)
        || JSNum.lt (.int 1) (Number data.equity) then
      ⟨[Job.duplicateCheckCall data],
        .error (.badRequest ("Invalid equity: " ++ data.equity.toStr))⟩
    else
      match dbQuery db (Job.companyResCall data) with
      | .error err => ⟨[Job.duplicateCheckCall data, Job.companyResCall data], .error err⟩
      | .ok companyRes =>
        if companyRes.head?.isNone then
          ⟨[Job.duplicateCheckCall data, Job.companyResCall data],
            .error (.badRequest ("Invalid company handle: " ++ data.companyHandle.toStr))⟩
        else
          match dbQuery db (Job.insertCall data) with
          | .error err =>
            ⟨[Job.duplicateCheckCall data, Job.companyResCall data, Job.insertCall data],
              .error err⟩
          | .ok result =>
            ⟨[Job.duplicateCheckCall data, Job.companyResCall data, Job.insertCall data],
              .ok result.head?⟩

/-! ## Facts about joining and indexing -/

theorem intercalate_go_snoc (sep a : String) (l : List String) (acc : String) :
    String.intercalate.go acc sep (l ++ [a]) = String.intercalate.go acc sep l ++ sep ++ a := by
  induction l generalizing acc with
  | nil => simp [String.intercalate.go]
  | cons b l ih => simp [String.intercalate.go, ih]

theorem intercalate_snoc (sep a : String) (l : List String) (h : l ≠ []) :
    sep.intercalate (l ++ [a]) = sep.intercalate l ++ sep ++ a := by
  cases l with
  | nil => exact absurd rfl h
  | cons b l => simp [String.intercalate, intercalate_go_snoc]

theorem cols_length (keys : List String) (jsToSql : String → JSVal) :
    (cols keys jsToSql).length = keys.length := by
  simp [cols]

theorem cols_snoc (keys : List String) (k : String) (jsToSql : String → JSVal) :
    cols (keys ++ [k]) jsToSql
      = cols keys jsToSql
        ++ ["\"" ++ columnName jsToSql k ++ "\"=$" ++ toString (keys.length + 1)] := by
  simp [cols, List.mapIdx_append]

theorem sqlForPartialUpdate_ok (dataToUpdate : JSObject) (jsToSql : String → JSVal)
    (h : dataToUpdate ≠ []) :
    sqlForPartialUpdate dataToUpdate jsToSql
      = .ok { setCols := ", ".intercalate (cols (Object.keys dataToUpdate) jsToSql),
              values := Object.values dataToUpdate } := by
  cases dataToUpdate with
  | nil => exact absurd rfl h
  | cons p l => simp [sqlForPartialUpdate, Object.keys]

theorem cols_getElem? (data : JSObject) (jsToSql : String → JSVal) (i : Nat)
    (hi : i < data.length) :
    (cols (Object.keys data) jsToSql)[i]?
      = some ("\"" ++ columnName jsToSql (data.get ⟨i, hi⟩).1 ++ "\"=$" ++ toString (i + 1)) := by
  simp [cols, Object.keys, List.getElem?_eq_getElem hi]

theorem cols_eq_ofFn (data : JSObject) (jsToSql : String → JSVal) :
    cols (Object.keys data) jsToSql
      = List.ofFn fun i : Fin data.length =>
          "\"" ++ columnName jsToSql (data.get i).1 ++ "\"=$" ++ toString (i.1 + 1) := by
  apply List.ext_getElem?
  intro i
  by_cases hi : i < data.length
  · rw [cols_getElem? data jsToSql i hi]
    simp [List.getElem?_ofFn, hi]
  · have h1 : (cols (Object.keys data) jsToSql).length ≤ i := by
      simp [cols_length, Object.keys]; omega
    rw [List.getElem?_eq_none h1]
    simp [List.getElem?_ofFn, List.ofFnNthVal, hi]

theorem columnName_of_str (jsToSql : String → JSVal) (k s : String)
    (h : jsToSql k = .str s) (hs : s ≠ "") : columnName jsToSql k = s := by
  simp [columnName, h, JSVal.orElse, JSVal.truthy, JSVal.toStr, hs]

theorem columnName_of_empty (jsToSql : String → JSVal) (k : String)
    (h : jsToSql k = .str "") : columnName jsToSql k = k := by
  simp [columnName, h, JSVal.orElse, JSVal.truthy, JSVal.toStr]

theorem columnName_of_undefined (jsToSql : String → JSVal) (k : String)
    (h : jsToSql k = .undefined) : columnName jsToSql k = k := by
  simp [columnName, h, JSVal.orElse, JSVal.truthy, JSVal.toStr]

/-! ## Facts about words -/

theorem runs_ne_nil (l : List Char) : runs l ≠ [] := by
  cases l with
  | nil => simp [runs]
  | cons c cs =>
    simp only [runs]
    split
    · simp
    · split <;> simp

theorem runs_append_blank (a b : List Char) (c : Char) (hc : isBlank c = true) :
    runs (a ++ c :: b) = runs a ++ runs b := by
  induction a with
  | nil => simp [runs, hc]
  | cons x a ih =>
    obtain ⟨w, ws, h⟩ := List.exists_cons_of_ne_nil (runs_ne_nil a)
    by_cases hx : isBlank x = true
    · simp [runs, hx, ih]
    · simp [runs, hx, ih, h]

theorem sqlWords_append_right (a b : String) (h : startsBlank b = true) :
    sqlWords (a ++ b) = sqlWords a ++ sqlWords b := by
  obtain ⟨a⟩ := a
  obtain ⟨b⟩ := b
  cases b with
  | nil =>
    have : (⟨a⟩ : String) ++ ⟨[]⟩ = ⟨a⟩ := by
      apply String.ext; simp
    rw [this]
    simp [sqlWords, runs]
  | cons c b =>
    simp only [startsBlank] at h
    simp only [sqlWords, String.data_append, runs_append_blank a b c h, List.filter_append,
      List.map_append, runs, h, if_true]
    simp

theorem sqlWords_append_left (a b : String) (h : endsBlank a = true) :
    sqlWords (a ++ b) = sqlWords a ++ sqlWords b := by
  obtain ⟨a⟩ := a
  obtain ⟨b⟩ := b
  rcases List.eq_nil_or_concat a with h0 | ⟨a', c, h0⟩
  · subst h0
    have : (⟨[]⟩ : String) ++ ⟨b⟩ = ⟨b⟩ := by
      apply String.ext; simp
    rw [this]
    simp [sqlWords, runs]
  · subst h0
    simp [endsBlank] at h
    have e1 : runs (a' ++ [c]) = runs a' ++ [[]] := by
      simpa [runs] using runs_append_blank a' [] c h
    simp only [sqlWords, String.data_append, List.concat_eq_append, List.append_assoc,
      List.singleton_append, runs_append_blank a' b c h, e1, List.filter_append, List.map_append]
    simp

theorem startsBlank_append (a b : String) (ha : a ≠ "") (h : startsBlank a = true) :
    startsBlank (a ++ b) = true := by
  obtain ⟨a⟩ := a
  cases a with
  | nil => exact absurd rfl ha
  | cons c a => simpa [startsBlank] using h

theorem truthy_str_append (a b : String) (ha : a ≠ "") : (JSVal.str (a ++ b)).truthy = true := by
  obtain ⟨a⟩ := a
  cases a with
  | nil => exact absurd rfl ha
  | cons c a =>
    simp only [JSVal.truthy, bne_iff_ne, ne_eq]
    intro h
    have := congrArg String.data h
    simp at this

/-! ## helpers/sql.js: the claims -/

/-- C1: `sqlForPartialUpdate` throws the bad-request error "No data" exactly when
`dataToUpdate` has no keys, whatever the translation table, and returns a result exactly when
there is at least one key. The test's call with `{}` throws, and `Job.update(id, {})` ends with
that error without having called the store. -/
theorem sqlForPartialUpdate_no_data (dataToUpdate : JSObject) (jsToSql : String → JSVal) :
    (sqlForPartialUpdate dataToUpdate jsToSql = .error (.badRequest "No data")
        ↔ Object.keys dataToUpdate = [])
    ∧ ((∃ res, sqlForPartialUpdate dataToUpdate jsToSql = .ok res)
        ↔ Object.keys dataToUpdate ≠ [])
    ∧ sqlForPartialUpdate []
          (objectLiteral [("data1", .str "data_1"), ("data2", .str "data_2")])
        = .error (.badRequest "No data")
    ∧ ∀ (db : Db) (id : JSVal),
        Job.update db id [] = ⟨[], .error (.badRequest "No data")⟩ := by
  refine ⟨?_, ?_, rfl, fun _ _ => rfl⟩
  · cases dataToUpdate with
    | nil => simp [sqlForPartialUpdate, Object.keys]
    | cons p l => simp [sqlForPartialUpdate, Object.keys]
  · cases dataToUpdate with
    | nil => simp [sqlForPartialUpdate, Object.keys]
    | cons p l => simp [sqlForPartialUpdate, Object.keys]

/-- C2: for a `dataToUpdate` with `n ≥ 1` keys and any translation table,
`sqlForPartialUpdate` returns; there are exactly `n` assignments (the array `cols`, which
`setCols` joins) and exactly `n` values; assignment `i` (from 0) ends in the placeholder
`$(i+1)` and `values[i]` is the value stored under key `i`, in the same enumeration order. -/
theorem sqlForPartialUpdate_positions (dataToUpdate : JSObject) (jsToSql : String → JSVal)
    (h : dataToUpdate ≠ []) :
    ∃ res, sqlForPartialUpdate dataToUpdate jsToSql = .ok res
      ∧ res.setCols = ", ".intercalate (cols (Object.keys dataToUpdate) jsToSql)
      ∧ (cols (Object.keys dataToUpdate) jsToSql).length = dataToUpdate.length
      ∧ res.values.length = dataToUpdate.length
      ∧ ∀ (i : Nat) (hi : i < dataToUpdate.length),
          (cols (Object.keys dataToUpdate) jsToSql)[i]?
              = some ("\"" ++ columnName jsToSql (dataToUpdate.get ⟨i, hi⟩).1
                        ++ "\"=$" ++ toString (i + 1))
            ∧ res.values[i]? = some (dataToUpdate.get ⟨i, hi⟩).2 := by
  refine ⟨_, sqlForPartialUpdate_ok dataToUpdate jsToSql h, rfl, ?_, ?_, ?_⟩
  · simp [cols_length, Object.keys]
  · simp [Object.values]
  · intro i hi
    refine ⟨cols_getElem? dataToUpdate jsToSql i hi, ?_⟩
    simp [Object.values, List.getElem?_eq_getElem hi]

/-- C2 at `{a: 1, b: 2}` with the table `{a: "b"}`: both keys resolve to column `b`, both
assignments are kept and the two values stay in key order. -/
theorem sqlForPartialUpdate_positions_witness :
    ∃ res, sqlForPartialUpdate [("a", .num (.int 1)), ("b", .num (.int 2))]
                (objectLiteral [("a", .str "b")]) = .ok res
      ∧ res = ⟨"\"b\"=$1, \"b\"=$2", [.num (.int 1), .num (.int 2)]⟩
      ∧ res.values.length = 2 := by
  obtain ⟨res, h1, -, -, h4, -⟩ :=
    sqlForPartialUpdate_positions [("a", .num (.int 1)), ("b", .num (.int 2))]
      (objectLiteral [("a", .str "b")]) (by decide)
  refine ⟨res, h1, ?_, h4⟩
  have h : sqlForPartialUpdate [("a", .num (.int 1)), ("b", .num (.int 2))]
      (objectLiteral [("a", .str "b")])
        = .ok ⟨"\"b\"=$1, \"b\"=$2", [.num (.int 1), .num (.int 2)]⟩ := by rfl
  rw [h] at h1
  injection h1 with h1
  exact h1.symm

/-- C3 as stated fails. The table `{a: ""}` has an entry for `a`, and the column of the
assignment `sqlForPartialUpdate({a: 1}, {a: ""})` builds is `a`, not the entry. The table `{}`
has no entry for `constructor`, and the column built for that key is the text of the inherited
function, not the key. -/
theorem columnName_entry_counterexample :
    objectLiteral [("a", .str "")] "a" = .str ""
    ∧ sqlForPartialUpdate [("a", .num (.int 1))] (objectLiteral [("a", .str "")])
        = .ok ⟨"\"a\"=$1", [.num (.int 1)]⟩
    ∧ ¬ (∀ (jsToSql : String → JSVal) (k s : String),
          jsToSql k = .str s → columnName jsToSql k = s)
    ∧ sqlForPartialUpdate [("constructor", .num (.int 1))] (objectLiteral [])
        = .ok ⟨"\"function Object() \x7b [native code] \x7d\"=$1", [.num (.int 1)]⟩ := by
  refine ⟨rfl, rfl, ?_, rfl⟩
  intro h
  have h1 := h (objectLiteral [("a", .str "")]) "a" "" rfl
  revert h1
  decide

/-- C3, amended: the assignment built for the key `k` at position `i` names the column
`columnName jsToSql k`, the text of `jsToSql[k] || k`. That column is the entry `jsToSql[k]`
whenever the entry is a non-empty string, and it is `k` itself whenever reading `jsToSql[k]`
gives `undefined` (no own and no inherited property of that name) or the empty string. -/
theorem columnName_resolution (dataToUpdate : JSObject) (jsToSql : String → JSVal) (i : Nat)
    (hi : i < dataToUpdate.length) :
    (∃ res, sqlForPartialUpdate dataToUpdate jsToSql = .ok res
        ∧ res.setCols = ", ".intercalate (cols (Object.keys dataToUpdate) jsToSql))
    ∧ (cols (Object.keys dataToUpdate) jsToSql)[i]?
        = some ("\"" ++ columnName jsToSql (dataToUpdate.get ⟨i, hi⟩).1
                  ++ "\"=$" ++ toString (i + 1))
    ∧ (∀ s : String, jsToSql (dataToUpdate.get ⟨i, hi⟩).1 = .str s → s ≠ "" →
        columnName jsToSql (dataToUpdate.get ⟨i, hi⟩).1 = s)
    ∧ (jsToSql (dataToUpdate.get ⟨i, hi⟩).1 = .str "" →
        columnName jsToSql (dataToUpdate.get ⟨i, hi⟩).1 = (dataToUpdate.get ⟨i, hi⟩).1)
    ∧ (jsToSql (dataToUpdate.get ⟨i, hi⟩).1 = .undefined →
        columnName jsToSql (dataToUpdate.get ⟨i, hi⟩).1 = (dataToUpdate.get ⟨i, hi⟩).1) := by
  have hne : dataToUpdate ≠ [] := by
    intro h0
    rw [h0] at hi
    exact Nat.not_lt_zero _ hi
  refine ⟨⟨_, sqlForPartialUpdate_ok dataToUpdate jsToSql hne, rfl⟩,
    cols_getElem? dataToUpdate jsToSql i hi, ?_, ?_, ?_⟩
  · exact fun s hs hne => columnName_of_str jsToSql _ s hs hne
  · exact fun hs => columnName_of_empty jsToSql _ hs
  · exact fun hs => columnName_of_undefined jsToSql _ hs

/-- C3 at the two calls of the specification: `{a: 1}` with the table `{}` gives column `a`,
and with the table `{a: "col_a"}` gives column `col_a`. -/
theorem columnName_resolution_witness :
    columnName (objectLiteral []) "a" = "a"
    ∧ columnName (objectLiteral [("a", .str "col_a")]) "a" = "col_a"
    ∧ (cols (Object.keys [("a", .num (.int 1))]) (objectLiteral [("a", .str "col_a")]))[0]?
        = some "\"col_a\"=$1" :=
  ⟨(columnName_resolution [("a", .num (.int 1))] (objectLiteral []) 0 (by decide)).2.2.2.2 rfl,
   (columnName_resolution [("a", .num (.int 1))] (objectLiteral [("a", .str "col_a")]) 0
      (by decide)).2.2.1 "col_a" rfl (by decide),
   (columnName_resolution [("a", .num (.int 1))] (objectLiteral [("a", .str "col_a")]) 0
      (by decide)).2.1⟩

/-- C4: for a non-empty `dataToUpdate`, `setCols` is the join with `", "` of one assignment
per key, assignment `i` (from 0) being the double-quoted resolved column name followed by `=$`
and the decimal numeral of `i+1`; `values` are the values in key order. The join puts the
separator between assignments only: a single key gives the bare assignment, and one more key
appends `", "` and its assignment to the text built so far. -/
theorem sqlForPartialUpdate_setCols (dataToUpdate : JSObject) (jsToSql : String → JSVal)
    (h : dataToUpdate ≠ []) :
    ∃ res, sqlForPartialUpdate dataToUpdate jsToSql = .ok res
      ∧ res.setCols = ", ".intercalate (List.ofFn fun i : Fin dataToUpdate.length =>
          "\"" ++ columnName jsToSql (dataToUpdate.get i).1 ++ "\"=$" ++ toString (i.1 + 1))
      ∧ res.values = dataToUpdate.map Prod.snd
      ∧ (∀ (k : String) (v : JSVal),
          sqlForPartialUpdate [(k, v)] jsToSql
            = .ok ⟨"\"" ++ columnName jsToSql k ++ "\"=$1", [v]⟩)
      ∧ (∀ (k : String) (v : JSVal),
          sqlForPartialUpdate (dataToUpdate ++ [(k, v)]) jsToSql
            = .ok ⟨res.setCols ++ ", " ++ ("\"" ++ columnName jsToSql k ++ "\"=$"
                      ++ toString (dataToUpdate.length + 1)),
                   res.values ++ [v]⟩) := by
  refine ⟨_, sqlForPartialUpdate_ok dataToUpdate jsToSql h, ?_, rfl, ?_, ?_⟩
  · simp only [cols_eq_ofFn]
  · intro k v
    simp [sqlForPartialUpdate, Object.keys, Object.values, cols, String.intercalate,
      String.intercalate.go]
    have h1 : toString 1 = "1" := rfl
    rw [h1, String.append_assoc]
    rfl
  · intro k v
    rw [sqlForPartialUpdate_ok _ _ (by simp)]
    have hk : Object.keys (dataToUpdate ++ [(k, v)]) = Object.keys dataToUpdate ++ [k] := by
      simp [Object.keys]
    have hc : cols (Object.keys dataToUpdate) jsToSql ≠ [] := by
      intro h0
      have := cols_length (Object.keys dataToUpdate) jsToSql
      rw [h0] at this
      simp [Object.keys] at this
      exact h (List.length_eq_zero.mp this.symm)
    rw [hk, cols_snoc, intercalate_snoc _ _ _ hc]
    simp [Object.values, Object.keys]

/-- C4 at the data of `sql.test.js`: `{data1, data2, data3}` with the table
`{data1: "data_1", data2: "data_2"}` gives `"data_1"=$1, "data_2"=$2, "data3"=$3` and the
three values in order. -/
theorem sqlForPartialUpdate_setCols_witness :
    ∃ res, sqlForPartialUpdate
              [("data1", .str "data1"), ("data2", .str "data2"), ("data3", .str "data3")]
              (objectLiteral [("data1", .str "data_1"), ("data2", .str "data_2")]) = .ok res
      ∧ res.setCols = "\"data_1\"=$1, \"data_2\"=$2, \"data3\"=$3"
      ∧ res.values = [.str "data1", .str "data2", .str "data3"] := by
  obtain ⟨res, h1, h2, h3, -, -⟩ := sqlForPartialUpdate_setCols
    [("data1", .str "data1"), ("data2", .str "data2"), ("data3", .str "data3")]
    (objectLiteral [("data1", .str "data_1"), ("data2", .str "data_2")]) (by decide)
  refine ⟨res, h1, ?_, h3⟩
  rw [h2]
  rfl

/-! ## Facts about the statements of `Company.findAll` -/

theorem company_nameQuery_truthy (q : CompanyQuery) :
    (Company.nameQuery q).truthy = q.name.truthy := by
  unfold Company.nameQuery
  split
  · rename_i h
    rw [h, String.append_assoc]
    exact truthy_str_append _ _ (by decide)
  · rename_i h
    rw [Bool.not_eq_true] at h
    rw [h]
    rfl

theorem company_minEmpQuery_truthy (q : CompanyQuery) :
    (Company.minEmpQuery q).truthy = q.minEmployees.truthy := by
  unfold Company.minEmpQuery
  split
  · rename_i h
    rw [h]
    exact truthy_str_append _ _ (by decide)
  · rename_i h
    rw [Bool.not_eq_true] at h
    rw [h]
    rfl

theorem company_maxEmpQuery_truthy (q : CompanyQuery) :
    (Company.maxEmpQuery q).truthy = q.maxEmployees.truthy := by
  unfold Company.maxEmpQuery
  split
  · rename_i h
    rw [h]
    exact truthy_str_append _ _ (by decide)
  · rename_i h
    rw [Bool.not_eq_true] at h
    rw [h]
    rfl

theorem sqlWords_AND : sqlWords "AND" = ["AND"] := by decide

theorem sqlWords_empty : sqlWords "" = [] := by decide

theorem sqlWords_join_AND (a b : String) :
    sqlWords (a ++ " AND " ++ b) = sqlWords a ++ "AND" :: sqlWords b := by
  have e : sqlWords " AND " = ["AND"] := by decide
  rw [String.append_assoc,
    sqlWords_append_right a (" AND " ++ b) (startsBlank_append " AND " b (by decide) (by decide)),
    sqlWords_append_left " AND " b (by decide), e]
  rfl

/-- The words of the filtered statement of `Company.findAll`, chunk by chunk. -/
theorem company_words_companiesResQuery (q : CompanyQuery) :
    sqlWords (Company.companiesResQuery q)
      = ["SELECT", "handle,", "name,", "description,"]
        ++ (if q.minEmployees.truthy = true ∨ q.maxEmployees.truthy = true
            then ["num_employees", "AS", "\"numEmployees\","] else [])
        ++ ["logo_url", "AS", "\"logoUrl\"", "FROM", "companies", "WHERE"]
        ++ sqlWords (" AND ".intercalate (Company.conditions q))
        ++ ["ORDER", "BY", "name"] := by
  have hn := company_nameQuery_truthy q
  have hm := company_minEmpQuery_truthy q
  have hx := company_maxEmpQuery_truthy q
  have e0 : sqlWords "SELECT handle, \n                name, \n                description,\n\t\t\t\t"
      = ["SELECT", "handle,", "name,", "description,"] := by decide
  have e1 : sqlWords
      "\n                logo_url AS \"logoUrl\"\n            FROM companies\n\t\t\tWHERE "
      = ["logo_url", "AS", "\"logoUrl\"", "FROM", "companies", "WHERE"] := by decide
  have e2 : sqlWords "\n\t\t\t" = [] := by decide
  have e3 : sqlWords " " = [] := by decide
  have e4 : sqlWords "\n\t\t\tORDER BY name" = ["ORDER", "BY", "name"] := by decide
  have e5 : sqlWords "num_employees AS \"numEmployees\","
      = ["num_employees", "AS", "\"numEmployees\","] := by decide
  have e6 : sqlWords " AND " = ["AND"] := by decide
  simp only [Company.companiesResQuery, String.append_assoc]
  simp +decide only [sqlWords_append_left, sqlWords_append_right, startsBlank_append]
  rw [e0, e1, e2, e3, e4]
  cases h1 : q.name.truthy <;> cases h2 : q.minEmployees.truthy <;>
    cases h3 : q.maxEmployees.truthy <;>
    simp [Company.conditions, JSVal.orElse, JSVal.andAlso, hn, hm, hx, h1, h2, h3, e5, e6,
      sqlWords_AND, sqlWords_empty, String.intercalate, String.intercalate.go,
      sqlWords_append_left, sqlWords_append_right, startsBlank_append, sqlWords_join_AND]

theorem company_conditions_eq (q : CompanyQuery) :
    Company.conditions q
      = (if q.name.truthy = true then ["name LIKE '%" ++ q.name.toStr ++ "%'"] else [])
        ++ (if q.minEmployees.truthy = true then ["num_employees >= " ++ q.minEmployees.toStr]
            else [])
        ++ (if q.maxEmployees.truthy = true then ["num_employees <= " ++ q.maxEmployees.toStr]
            else []) := by
  have hn := company_nameQuery_truthy q
  have hm := company_minEmpQuery_truthy q
  have hx := company_maxEmpQuery_truthy q
  cases h1 : q.name.truthy <;> cases h2 : q.minEmployees.truthy <;>
    cases h3 : q.maxEmployees.truthy <;>
    simp [Company.conditions, List.filter, hn, hm, hx, h1, h2, h3] <;>
    simp [Company.nameQuery, Company.minEmpQuery, Company.maxEmpQuery, h1, h2, h3, JSVal.toStr]

theorem company_filtered_iff (q : CompanyQuery) :
    ((q.name.orElse q.minEmployees).orElse q.maxEmployees).truthy = true
      ↔ (q.name.truthy = true ∨ q.minEmployees.truthy = true ∨ q.maxEmployees.truthy = true) := by
  cases h1 : q.name.truthy <;> cases h2 : q.minEmployees.truthy <;>
    cases h3 : q.maxEmployees.truthy <;> simp [JSVal.orElse, h1, h2, h3]

theorem company_where_mem_words (q : CompanyQuery) :
    "WHERE" ∈ sqlWords (Company.companiesResQuery q) := by
  rw [company_words_companiesResQuery]
  simp

theorem company_words_unfilteredQuery :
    sqlWords Company.unfilteredQuery
      = ["SELECT", "handle,", "name,", "description,", "num_employees", "AS",
         "\"numEmployees\",", "logo_url", "AS", "\"logoUrl\"", "FROM", "companies",
         "ORDER", "BY", "name"] := by
  decide

theorem company_companiesResQuery_ne_unfiltered (q : CompanyQuery) :
    Company.companiesResQuery q ≠ Company.unfilteredQuery := by
  intro h
  have h1 := company_where_mem_words q
  rw [h, company_words_unfilteredQuery] at h1
  revert h1
  decide

theorem company_findAll_calls_filtered (db : Db) (q : CompanyQuery)
    (h : ((q.name.orElse q.minEmployees).orElse q.maxEmployees).truthy = true) :
    Company.findAll db (some q)
      = ⟨[⟨Company.companiesResQuery q, []⟩], dbQuery db ⟨Company.companiesResQuery q, []⟩⟩ := by
  simp [Company.findAll, h]

theorem company_findAll_calls_unfiltered (db : Db) (q : CompanyQuery)
    (h : ((q.name.orElse q.minEmployees).orElse q.maxEmployees).truthy = false) :
    Company.findAll db (some q)
      = ⟨[⟨Company.unfilteredQuery, []⟩], dbQuery db ⟨Company.unfilteredQuery, []⟩⟩ := by
  simp [Company.findAll, h]

/-! ## Facts about the store -/

theorem dbQuery_ok (db : Db) (call : DbCall) (rows : List Row) (h : db call = .ok rows) :
    dbQuery db call = .ok rows := by
  simp [dbQuery, h]

theorem dbQuery_error (db : Db) (call : DbCall) (message : String)
    (h : db call = .error message) : dbQuery db call = .error (.store message) := by
  simp [dbQuery, h]

theorem dbQuery_cases (db : Db) (call : DbCall) :
    (∃ rows, db call = .ok rows ∧ dbQuery db call = .ok rows)
    ∨ (∃ message, db call = .error message ∧ dbQuery db call = .error (.store message)) := by
  cases h : db call with
  | ok rows => exact Or.inl ⟨rows, rfl, dbQuery_ok db call rows h⟩
  | error message => exact Or.inr ⟨message, rfl, dbQuery_error db call message h⟩

theorem dbQuery_ne_express (db : Db) (call : DbCall) (msg : String) :
    dbQuery db call ≠ .error (.badRequest msg) ∧ dbQuery db call ≠ .error (.notFound msg) := by
  rcases dbQuery_cases db call with ⟨rows, -, h⟩ | ⟨message, -, h⟩ <;> rw [h] <;> simp

theorem infix_append_right (s t y : String) (h : s.data <:+: t.data) :
    s.data <:+: (t ++ y).data := by
  obtain ⟨a, b, hab⟩ := h
  exact ⟨a, b ++ y.data, by simp [← hab]⟩

theorem infix_append_left (x s t : String) (h : s.data <:+: t.data) :
    s.data <:+: (x ++ t).data := by
  obtain ⟨a, b, hab⟩ := h
  exact ⟨x.data ++ a, b, by simp [← hab]⟩

theorem truthy_str_iff (s : String) : (JSVal.str s).truthy = true ↔ s ≠ "" := by
  simp [JSVal.truthy]

/-! ## models/company.js: the claims -/

/-- C5: `Company.findAll(query)` sends the unfiltered listing exactly when `query` is
absent or null, or none of `query.name`, `query.minEmployees`, `query.maxEmployees` is truthy;
in every other case it sends the filtered statement, which has a `WHERE`. The unfiltered
listing has no `WHERE` and projects handle, name, description, numEmployees and logoUrl.
`Company.findAll({})` takes the unfiltered path. -/
theorem company_findAll_unfiltered_iff (db : Db) (query : Option CompanyQuery) :
    ((Company.findAll db query).calls = [⟨Company.unfilteredQuery, []⟩]
        ↔ (query = none ∨ ∃ q, query = some q ∧ q.name.truthy = false
              ∧ q.minEmployees.truthy = false ∧ q.maxEmployees.truthy = false))
    ∧ ((∃ q, query = some q
            ∧ (Company.findAll db query).calls = [⟨Company.companiesResQuery q, []⟩]
            ∧ "WHERE" ∈ sqlWords (Company.companiesResQuery q))
        ↔ ¬ (query = none ∨ ∃ q, query = some q ∧ q.name.truthy = false
              ∧ q.minEmployees.truthy = false ∧ q.maxEmployees.truthy = false))
    ∧ sqlWords Company.unfilteredQuery
        = ["SELECT", "handle,", "name,", "description,", "num_employees", "AS",
           "\"numEmployees\",", "logo_url", "AS", "\"logoUrl\"", "FROM", "companies",
           "ORDER", "BY", "name"]
    ∧ (Company.findAll db (some ⟨.undefined, .undefined, .undefined⟩)).calls
        = [⟨Company.unfilteredQuery, []⟩] := by
  refine ⟨?_, ?_, company_words_unfilteredQuery, rfl⟩
  · cases query with
    | none => simp [Company.findAll]
    | some q =>
      by_cases h : ((q.name.orElse q.minEmployees).orElse q.maxEmployees).truthy = true
      · have h1 := (company_filtered_iff q).mp h
        rw [company_findAll_calls_filtered db q h]
        have hne := company_companiesResQuery_ne_unfiltered q
        simp only [List.cons.injEq, DbCall.mk.injEq, hne, and_true, false_and, reduceCtorEq,
          Option.some.injEq, exists_eq_left', false_or, false_iff, not_and]
        intro a b c
        rw [a, b, c] at h1
        simp at h1
      · have h1 := (company_filtered_iff q).not.mp h
        rw [Bool.not_eq_true] at h
        rw [company_findAll_calls_unfiltered db q h]
        simp only [not_or, Bool.not_eq_true] at h1
        simp [h1]
  · cases query with
    | none => simp
    | some q =>
      by_cases h : ((q.name.orElse q.minEmployees).orElse q.maxEmployees).truthy = true
      · have h1 := (company_filtered_iff q).mp h
        rw [company_findAll_calls_filtered db q h]
        simp only [Option.some.injEq, exists_eq_left', true_and, reduceCtorEq, false_or,
          company_where_mem_words, and_true, true_iff, not_and]
        intro a b c
        rw [a, b, c] at h1
        simp at h1
      · have h1 := (company_filtered_iff q).not.mp h
        rw [Bool.not_eq_true] at h
        rw [company_findAll_calls_unfiltered db q h]
        simp only [not_or, Bool.not_eq_true] at h1
        have hne := company_companiesResQuery_ne_unfiltered q
        simp [h1, hne.symm]

theorem company_minEmpQuery_infix (q : CompanyQuery) (h : q.minEmployees.truthy = true) :
    ("num_employees >= " ++ q.minEmployees.toStr).data
      <:+: (Company.companiesResQuery q).data := by
  have hM : (if (Company.minEmpQuery q).truthy = true then (Company.minEmpQuery q).toStr
      else "") = "num_employees >= " ++ q.minEmployees.toStr := by
    rw [company_minEmpQuery_truthy, h, if_pos rfl]
    simp [Company.minEmpQuery, h, JSVal.toStr]
  simp only [Company.companiesResQuery]
  iterate 5 apply infix_append_right
  rw [hM]
  exact infix_append_left _ _ _ (List.infix_refl _)

theorem truthy_query_field (v : JSVal) (h : v = .undefined ∨ ∃ s, v = .str s) :
    v.truthy = true ↔ ∃ s, v = .str s ∧ s ≠ "" := by
  rcases h with h | ⟨s, h⟩ <;> subst h <;> simp [JSVal.truthy]

/-- C6: on the filtered path of `Company.findAll`, the statement projects the
employee-count column (`num_employees AS "numEmployees"`, between description and logoUrl) if
and only if `minEmployees` or `maxEmployees` is supplied, that is, passes the test the method
makes of a field; when neither is, it projects exactly handle, name, description and logoUrl.
A field of the query string passes the test exactly when it is a non-empty text, and an absent
field does not: when both fields are absent or text, the column is projected if and only if
one of them is a non-empty text. -/
theorem company_findAll_projection (db : Db) (q : CompanyQuery)
    (h : ((q.name.orElse q.minEmployees).orElse q.maxEmployees).truthy = true) :
    (Company.findAll db (some q)).calls = [⟨Company.companiesResQuery q, []⟩]
    ∧ ((["SELECT", "handle,", "name,", "description,", "num_employees", "AS",
          "\"numEmployees\",", "logo_url", "AS", "\"logoUrl\"", "FROM", "companies", "WHERE"]
            <+: sqlWords (Company.companiesResQuery q))
        ↔ (q.minEmployees.truthy = true ∨ q.maxEmployees.truthy = true))
    ∧ ((["SELECT", "handle,", "name,", "description,", "logo_url", "AS", "\"logoUrl\"",
          "FROM", "companies", "WHERE"] <+: sqlWords (Company.companiesResQuery q))
        ↔ (q.minEmployees.truthy = false ∧ q.maxEmployees.truthy = false))
    ∧ (∀ s : String, (JSVal.str s).truthy = true ↔ s ≠ "")
    ∧ JSVal.undefined.truthy = false
    ∧ ((q.minEmployees = .undefined ∨ ∃ s, q.minEmployees = .str s) →
        (q.maxEmployees = .undefined ∨ ∃ s, q.maxEmployees = .str s) →
        ((["SELECT", "handle,", "name,", "description,", "num_employees", "AS",
            "\"numEmployees\",", "logo_url", "AS", "\"logoUrl\"", "FROM", "companies", "WHERE"]
              <+: sqlWords (Company.companiesResQuery q))
          ↔ ((∃ s, q.minEmployees = .str s ∧ s ≠ "")
              ∨ (∃ s, q.maxEmployees = .str s ∧ s ≠ "")))) := by
  have hcol : (["SELECT", "handle,", "name,", "description,", "num_employees", "AS",
          "\"numEmployees\",", "logo_url", "AS", "\"logoUrl\"", "FROM", "companies", "WHERE"]
            <+: sqlWords (Company.companiesResQuery q))
        ↔ (q.minEmployees.truthy = true ∨ q.maxEmployees.truthy = true) := by
    rw [company_words_companiesResQuery]
    by_cases hc : q.minEmployees.truthy = true ∨ q.maxEmployees.truthy = true
    · simp [hc, List.cons_prefix_cons]
    · simp [hc, List.cons_prefix_cons]
  refine ⟨by rw [company_findAll_calls_filtered db q h], hcol, ?_, truthy_str_iff, rfl, ?_⟩
  · rw [company_words_companiesResQuery]
    by_cases hc : q.minEmployees.truthy = true ∨ q.maxEmployees.truthy = true
    · simp only [hc, if_true]
      rcases hc with hc | hc <;> simp [hc, List.cons_prefix_cons]
    · simp only [hc, if_false]
      simp only [not_or, Bool.not_eq_true] at hc
      simp [hc, List.cons_prefix_cons]
  · intro hmin hmax
    rw [hcol, truthy_query_field _ hmin, truthy_query_field _ hmax]

/-- C6 at the two queries of the specification and at a query string that supplies a zero:
`{name: "foo"}` leaves the employee-count column out, `{minEmployees: 5}` projects it, and so
does `{name: "foo", minEmployees: "0"}`. -/
theorem company_findAll_projection_witness :
    (["SELECT", "handle,", "name,", "description,", "logo_url", "AS", "\"logoUrl\"",
        "FROM", "companies", "WHERE"]
      <+: sqlWords (Company.companiesResQuery ⟨.str "foo", .undefined, .undefined⟩))
    ∧ (["SELECT", "handle,", "name,", "description,", "num_employees", "AS",
        "\"numEmployees\",", "logo_url", "AS", "\"logoUrl\"", "FROM", "companies", "WHERE"]
      <+: sqlWords (Company.companiesResQuery ⟨.undefined, .num (.int 5), .undefined⟩))
    ∧ (["SELECT", "handle,", "name,", "description,", "num_employees", "AS",
        "\"numEmployees\",", "logo_url", "AS", "\"logoUrl\"", "FROM", "companies", "WHERE"]
      <+: sqlWords (Company.companiesResQuery ⟨.str "foo", .str "0", .undefined⟩)) :=
  ⟨(company_findAll_projection (fun _ => .ok []) ⟨.str "foo", .undefined, .undefined⟩
      (by decide)).2.2.1.mpr ⟨rfl, rfl⟩,
   (company_findAll_projection (fun _ => .ok []) ⟨.undefined, .num (.int 5), .undefined⟩
      (by decide)).2.1.mpr (Or.inl rfl),
   (company_findAll_projection (fun _ => .ok []) ⟨.str "foo", .str "0", .undefined⟩
      (by decide)).2.1.mpr (Or.inl rfl)⟩

/-- C7: on the filtered path of `Company.findAll` the statement is, word for word, the
projection, `FROM companies WHERE`, the emitted conditions joined by ` AND `, and
`ORDER BY name`. The emitted conditions are one per present field, that is, per field passing
the test the method makes of it (for a field of the query string: a non-empty text), in the
order `name LIKE '%<name>%'`, `num_employees >= <min>`, `num_employees <= <max>`, each value
as a template literal prints it, and there is at least one; the join puts one `AND` between
consecutive conditions and none before the first or after the last. -/
theorem company_findAll_where (db : Db) (q : CompanyQuery)
    (h : ((q.name.orElse q.minEmployees).orElse q.maxEmployees).truthy = true) :
    (Company.findAll db (some q)).calls = [⟨Company.companiesResQuery q, []⟩]
    ∧ sqlWords (Company.companiesResQuery q)
        = ["SELECT", "handle,", "name,", "description,"]
          ++ (if q.minEmployees.truthy = true ∨ q.maxEmployees.truthy = true
              then ["num_employees", "AS", "\"numEmployees\","] else [])
          ++ ["logo_url", "AS", "\"logoUrl\"", "FROM", "companies", "WHERE"]
          ++ sqlWords (" AND ".intercalate (Company.conditions q))
          ++ ["ORDER", "BY", "name"]
    ∧ Company.conditions q
        = (if q.name.truthy = true then ["name LIKE '%" ++ q.name.toStr ++ "%'"] else [])
          ++ (if q.minEmployees.truthy = true
              then ["num_employees >= " ++ q.minEmployees.toStr] else [])
          ++ (if q.maxEmployees.truthy = true
              then ["num_employees <= " ++ q.maxEmployees.toStr] else [])
    ∧ 1 ≤ (Company.conditions q).length
    ∧ (∀ a b c : String, " AND ".intercalate [a] = a
        ∧ " AND ".intercalate [a, b] = a ++ " AND " ++ b
        ∧ " AND ".intercalate [a, b, c] = a ++ " AND " ++ b ++ " AND " ++ c)
    ∧ (∀ s : String, (JSVal.str s).truthy = true ↔ s ≠ "")
    ∧ JSVal.undefined.truthy = false := by
  refine ⟨by rw [company_findAll_calls_filtered db q h], company_words_companiesResQuery q,
    company_conditions_eq q, ?_, fun a b c => ⟨rfl, rfl, rfl⟩, truthy_str_iff, rfl⟩
  rw [company_conditions_eq]
  rcases (company_filtered_iff q).mp h with h1 | h1 | h1 <;> simp [h1] <;> omega

set_option maxRecDepth 100000 in
/-- C7 at `{name: "foo", minEmployees: 1, maxEmployees: 1e21}`, three conditions and two
`AND`s with the upper bound printed as `1e+21`, and at the query string
`name=foo&minEmployees=0&maxEmployees=9`. -/
theorem company_findAll_where_witness :
    Company.conditions ⟨.str "foo", .num (.int 1), .num (.int 1000000000000000000000)⟩
      = ["name LIKE '%foo%'", "num_employees >= 1", "num_employees <= 1e+21"]
    ∧ sqlWords (Company.companiesResQuery
          ⟨.str "foo", .num (.int 1), .num (.int 1000000000000000000000)⟩)
        = ["SELECT", "handle,", "name,", "description,", "num_employees", "AS",
           "\"numEmployees\",", "logo_url", "AS", "\"logoUrl\"", "FROM", "companies", "WHERE",
           "name", "LIKE", "'%foo%'", "AND", "num_employees", ">=", "1", "AND",
           "num_employees", "<=", "1e+21", "ORDER", "BY", "name"]
    ∧ Company.conditions ⟨.str "foo", .str "0", .str "9"⟩
        = ["name LIKE '%foo%'", "num_employees >= 0", "num_employees <= 9"] := by
  obtain ⟨-, h2, h3, -, -⟩ := company_findAll_where (fun _ => .ok [])
    ⟨.str "foo", .num (.int 1), .num (.int 1000000000000000000000)⟩ (by decide)
  refine ⟨by rw [h3]; decide, by rw [h2, h3]; decide, by decide⟩

/-- C8 as stated fails at `Company.findAll({minEmployees: "x"})`: the method raises no
bad-request error and does not skip the store. It sends one statement, whose condition is
`num_employees >= x`; on a store that answers it the rows are returned, and on a store that
rejects it the error thrown is the store's. -/
theorem company_findAll_minEmployees_counterexample :
    (Company.findAll (fun _ => .ok []) (some ⟨.undefined, .str "x", .undefined⟩)).calls
        = [⟨"SELECT handle, \n                name, \n                description,\n\t\t\t\t"
              ++ "num_employees AS \"numEmployees\",\n"
              ++ "                logo_url AS \"logoUrl\"\n            FROM companies\n"
              ++ "\t\t\tWHERE \n\t\t\t num_employees >= x\n\t\t\t \n\t\t\tORDER BY name", []⟩]
    ∧ (Company.findAll (fun _ => .ok []) (some ⟨.undefined, .str "x", .undefined⟩)).result
        = .ok []
    ∧ (Company.findAll (fun _ => .error "column \"x\" does not exist")
          (some ⟨.undefined, .str "x", .undefined⟩)).calls
        = [⟨"SELECT handle, \n                name, \n                description,\n\t\t\t\t"
              ++ "num_employees AS \"numEmployees\",\n"
              ++ "                logo_url AS \"logoUrl\"\n            FROM companies\n"
              ++ "\t\t\tWHERE \n\t\t\t num_employees >= x\n\t\t\t \n\t\t\tORDER BY name", []⟩]
    ∧ (Company.findAll (fun _ => .error "column \"x\" does not exist")
          (some ⟨.undefined, .str "x", .undefined⟩)).result
        = .error (.store "column \"x\" does not exist") := by
  refine ⟨rfl, rfl, rfl, rfl⟩

/-- C8, amended: `Company.findAll` checks nothing about `minEmployees`. When `minEmployees`
passes the test of the field, numeric or not, the one statement sent is the filtered one, its
text contains `num_employees >= <minEmployees>` with the value as a template literal prints
it, that condition is among the conditions of its `WHERE` clause, and the outcome of the call
is what the store does with that statement: its rows, or its error. For every query the
method sends exactly one statement, without parameters, ends as the store does on it, and
never raises a bad-request error. -/
theorem company_findAll_minEmployees (db : Db) (q : CompanyQuery)
    (h : q.minEmployees.truthy = true) :
    (Company.findAll db (some q)).calls = [⟨Company.companiesResQuery q, []⟩]
    ∧ (Company.findAll db (some q)).result = dbQuery db ⟨Company.companiesResQuery q, []⟩
    ∧ ("num_employees >= " ++ q.minEmployees.toStr).data
        <:+: (Company.companiesResQuery q).data
    ∧ ("num_employees >= " ++ q.minEmployees.toStr) ∈ Company.conditions q
    ∧ sqlWords (Company.companiesResQuery q)
        = ["SELECT", "handle,", "name,", "description,", "num_employees", "AS",
           "\"numEmployees\",", "logo_url", "AS", "\"logoUrl\"", "FROM", "companies", "WHERE"]
          ++ sqlWords (" AND ".intercalate (Company.conditions q))
          ++ ["ORDER", "BY", "name"]
    ∧ (∀ query : Option CompanyQuery, ∃ call : DbCall,
        (Company.findAll db query).calls = [call]
        ∧ (Company.findAll db query).result = dbQuery db call
        ∧ call.values = []
        ∧ (∀ rows, db call = .ok rows → (Company.findAll db query).result = .ok rows)
        ∧ (∀ message, db call = .error message →
            (Company.findAll db query).result = .error (.store message))
        ∧ (∀ msg, (Company.findAll db query).result ≠ .error (.badRequest msg))) := by
  have hf : ((q.name.orElse q.minEmployees).orElse q.maxEmployees).truthy = true :=
    (company_filtered_iff q).mpr (Or.inr (Or.inl h))
  refine ⟨by rw [company_findAll_calls_filtered db q hf],
    by rw [company_findAll_calls_filtered db q hf], company_minEmpQuery_infix q h, ?_, ?_, ?_⟩
  · rw [company_conditions_eq]
    simp [h]
  · rw [company_words_companiesResQuery]
    simp [h]
  · intro query
    have key : ∀ call : DbCall, (Company.findAll db query) = ⟨[call], dbQuery db call⟩ →
        call.values = [] → ∃ call : DbCall,
        (Company.findAll db query).calls = [call]
        ∧ (Company.findAll db query).result = dbQuery db call
        ∧ call.values = []
        ∧ (∀ rows, db call = .ok rows → (Company.findAll db query).result = .ok rows)
        ∧ (∀ message, db call = .error message →
            (Company.findAll db query).result = .error (.store message))
        ∧ (∀ msg, (Company.findAll db query).result ≠ .error (.badRequest msg)) := by
      intro call hc hv
      rw [hc]
      exact ⟨call, rfl, rfl, hv, fun rows hr => dbQuery_ok db call rows hr,
        fun message hm => dbQuery_error db call message hm,
        fun msg => (dbQuery_ne_express db call msg).1⟩
    cases query with
    | none => exact key _ rfl rfl
    | some q' =>
      by_cases h' : ((q'.name.orElse q'.minEmployees).orElse q'.maxEmployees).truthy = true
      · exact key _ (company_findAll_calls_filtered db q' h') rfl
      · rw [Bool.not_eq_true] at h'
        exact key _ (company_findAll_calls_unfiltered db q' h') rfl

/-- C8 at `{minEmployees: "x"}` on a store that rejects the statement: the statement with
the condition `num_employees >= x` is sent, and the error is the store's. -/
theorem company_findAll_minEmployees_witness :
    (Company.findAll (fun _ => .error "column \"x\" does not exist")
        (some ⟨.undefined, .str "x", .undefined⟩)).calls
      = [⟨Company.companiesResQuery ⟨.undefined, .str "x", .undefined⟩, []⟩]
    ∧ "num_employees >= x".data
        <:+: (Company.companiesResQuery ⟨.undefined, .str "x", .undefined⟩).data
    ∧ (Company.findAll (fun _ => .error "column \"x\" does not exist")
        (some ⟨.undefined, .str "x", .undefined⟩)).result
      = .error (.store "column \"x\" does not exist") :=
  ⟨(company_findAll_minEmployees (fun _ => .error "column \"x\" does not exist")
      ⟨.undefined, .str "x", .undefined⟩ rfl).1,
   (company_findAll_minEmployees (fun _ => .error "column \"x\" does not exist")
      ⟨.undefined, .str "x", .undefined⟩ rfl).2.2.1,
   (company_findAll_minEmployees (fun _ => .error "column \"x\" does not exist")
      ⟨.undefined, .str "x", .undefined⟩ rfl).2.1⟩

/-! ## Facts about the statements of `Job.findAll` -/

theorem job_titleQuery_truthy (q : JobQuery) :
    (Job.titleQuery q).truthy = q.title.truthy := by
  unfold Job.titleQuery
  split
  · rename_i h
    rw [h, String.append_assoc]
    exact truthy_str_append _ _ (by decide)
  · rename_i h
    rw [Bool.not_eq_true] at h
    rw [h]
    rfl

theorem job_minSalaryQuery_truthy (q : JobQuery) :
    (Job.minSalaryQuery q).truthy = q.minSalary.truthy := by
  unfold Job.minSalaryQuery
  split
  · rename_i h
    rw [h]
    exact truthy_str_append _ _ (by decide)
  · rename_i h
    rw [Bool.not_eq_true] at h
    rw [h]
    rfl

theorem job_hasEquityQuery_truthy (q : JobQuery) :
    (Job.hasEquityQuery q).truthy = q.hasEquity.truthy := by
  unfold Job.hasEquityQuery
  split
  · rename_i h
    rw [h]
    rfl
  · rename_i h
    rw [Bool.not_eq_true] at h
    rw [h]
    rfl

/-- The words of the filtered statement of `Job.findAll`, chunk by chunk; `q` is the query
object after the assignments. -/
theorem job_words_jobsResQuery (q : JobQuery) :
    sqlWords (Job.jobsResQuery q)
      = ["SELECT", "id,", "title,", "salary,", "equity,", "company_handle", "AS",
         "\"companyHandle\"", "FROM", "jobs", "WHERE"]
        ++ sqlWords (" AND ".intercalate (Job.conditions q))
        ++ ["ORDER", "BY", "salary"] := by
  have ht := job_titleQuery_truthy q
  have hm := job_minSalaryQuery_truthy q
  have he := job_hasEquityQuery_truthy q
  have e0 : sqlWords
      "SELECT id, title, salary, equity, company_handle AS \"companyHandle\"\n\t\t\t\tFROM jobs"
      = ["SELECT", "id,", "title,", "salary,", "equity,", "company_handle", "AS",
         "\"companyHandle\"", "FROM", "jobs"] := by decide
  have e1 : sqlWords "\n\t\t\t\tWHERE " = ["WHERE"] := by decide
  have e2 : sqlWords "\n\t\t\t\t" = [] := by decide
  have e3 : sqlWords " " = [] := by decide
  have e4 : sqlWords "  " = [] := by decide
  have e5 : sqlWords "\n\t\t\t\tORDER BY salary" = ["ORDER", "BY", "salary"] := by decide
  simp only [Job.jobsResQuery, String.append_assoc]
  simp +decide only [sqlWords_append_left, sqlWords_append_right, startsBlank_append]
  rw [e0, e1, e2, e3, e4, e5]
  cases h1 : q.title.truthy <;> cases h2 : q.minSalary.truthy <;>
    cases h3 : q.hasEquity.truthy <;>
    simp [Job.conditions, JSVal.orElse, JSVal.andAlso, ht, hm, he, h1, h2, h3,
      sqlWords_AND, sqlWords_empty, String.intercalate, String.intercalate.go,
      sqlWords_append_left, sqlWords_append_right, startsBlank_append, sqlWords_join_AND]

theorem jsval_truthy_orElse (a b : JSVal) :
    (a.orElse b).truthy = (a.truthy || b.truthy) := by
  cases h : a.truthy <;> simp [JSVal.orElse, h]

theorem not_suffix_append (S X T : List Char) (n : Nat) (hT : n ≤ T.length)
    (hS : n ≤ S.length) (hne : S.reverse.take n ≠ T.reverse.take n) : ¬ S <:+ X ++ T := by
  rintro ⟨Y, hY⟩
  have h1 := congrArg List.reverse hY
  simp only [List.reverse_append] at h1
  have h2 := congrArg (List.take n) h1
  rw [List.take_append_of_le_length (by simpa using hS),
    List.take_append_of_le_length (by simpa using hT)] at h2
  exact hne h2

theorem job_jobsResQuery_tail (q : JobQuery) :
    ∃ x : String, Job.jobsResQuery q
      = x ++ "  " ++ (if (Job.hasEquityQuery q).truthy then (Job.hasEquityQuery q).toStr else "")
          ++ "\n\t\t\t\tORDER BY salary" :=
  ⟨_, rfl⟩

theorem job_findAll_calls_filtered (db : Db) (q : JobQuery)
    (h : ((q.title.orElse q.minSalary).orElse q.hasEquity).truthy = true) :
    Job.findAll db (some q)
      = (some (Job.normalized q),
          ⟨[⟨Job.jobsResQuery (Job.normalized q), []⟩],
            dbQuery db ⟨Job.jobsResQuery (Job.normalized q), []⟩⟩) := by
  simp [Job.findAll, h]

theorem job_findAll_calls_unfiltered (db : Db) (q : JobQuery)
    (h : ((q.title.orElse q.minSalary).orElse q.hasEquity).truthy = false) :
    Job.findAll db (some q)
      = (some q, ⟨[⟨Job.unfilteredQuery, []⟩], dbQuery db ⟨Job.unfilteredQuery, []⟩⟩) := by
  simp [Job.findAll, h]

theorem job_suffix_equity_iff (title minSalary : JSVal) (t : String) :
    ("equity > 0.0\n\t\t\t\tORDER BY salary").data
        <:+ (Job.jobsResQuery (Job.normalized ⟨title, minSalary, .str t⟩)).data
      ↔ t = "true" := by
  obtain ⟨x, hx⟩ := job_jobsResQuery_tail (Job.normalized ⟨title, minSalary, .str t⟩)
  rw [hx]
  by_cases ht : t = "true"
  · subst ht
    simp only [Job.hasEquityQuery, Job.normalized, if_true, JSVal.truthy, JSVal.toStr,
      String.data_append, iff_true]
    exact ⟨x.data ++ "  ".data, by simp⟩
  · have h1 : (JSVal.str t = JSVal.str "true") = False := by simp [ht]
    simp only [Job.hasEquityQuery, Job.normalized, h1, if_false, JSVal.truthy, JSVal.toStr,
      String.data_append, ht, iff_false, Bool.false_eq_true]
    have e : x.data ++ "  ".data ++ "".data ++ "\n\t\t\t\tORDER BY salary".data
        = x.data ++ "  \n\t\t\t\tORDER BY salary".data := by
      simp
    rw [e]
    exact not_suffix_append _ _ _ 21 (by decide) (by decide) (by decide)

/-! ## models/jobs.js: the claims about `hasEquity` -/

/-- C9 against the code, at `Job.findAll({hasEquity: "false"})`: the text is truthy, so the
filtered branch is taken, the text is normalised to `false`, no condition is left, and the
statement sent has `WHERE` directly followed by `ORDER BY salary`. The outcome of the call is
the store's answer to that statement, so when the store rejects it the call throws the
store's error, as it does on the store below, which answers the unfiltered listing sent for
`{}` and rejects a `WHERE` followed by `ORDER`. The rest of the claim holds: when `hasEquity`
is text, whatever `title` and `minSalary` are, one statement is sent, and it ends with the
condition `equity > 0.0` followed by the `ORDER BY salary` line if and only if the text is
exactly `true`; with `hasEquity: "true"` alone, the `WHERE` clause is that condition and
nothing else. -/
theorem job_findAll_hasEquity_text (db : Db) (title minSalary : JSVal) (t : String) :
    (∃ call : DbCall,
      (Job.findAll db (some ⟨title, minSalary, .str t⟩)).2.calls = [call]
      ∧ (Job.findAll db (some ⟨title, minSalary, .str t⟩)).2.result = dbQuery db call
      ∧ (("equity > 0.0\n\t\t\t\tORDER BY salary").data <:+ call.text.data ↔ t = "true"))
    ∧ (Job.findAll db (some ⟨.undefined, .undefined, .str "true"⟩)).2.calls
        = [⟨"SELECT id, title, salary, equity, company_handle AS \"companyHandle\"\n"
              ++ "\t\t\t\tFROM jobs\n\t\t\t\tWHERE \n\t\t\t\t \n\t\t\t\t  equity > 0.0\n"
              ++ "\t\t\t\tORDER BY salary", []⟩]
    ∧ sqlWords (Job.jobsResQuery (Job.normalized ⟨.undefined, .undefined, .str "true"⟩))
        = ["SELECT", "id,", "title,", "salary,", "equity,", "company_handle", "AS",
           "\"companyHandle\"", "FROM", "jobs", "WHERE", "equity", ">", "0.0",
           "ORDER", "BY", "salary"]
    ∧ (Job.findAll db (some ⟨.undefined, .undefined, .str "false"⟩)).2.calls
        = [⟨"SELECT id, title, salary, equity, company_handle AS \"companyHandle\"\n"
              ++ "\t\t\t\tFROM jobs\n\t\t\t\tWHERE \n\t\t\t\t \n\t\t\t\t  \n"
              ++ "\t\t\t\tORDER BY salary", []⟩]
    ∧ (∀ message : String,
        db ⟨"SELECT id, title, salary, equity, company_handle AS \"companyHandle\"\n"
              ++ "\t\t\t\tFROM jobs\n\t\t\t\tWHERE \n\t\t\t\t \n\t\t\t\t  \n"
              ++ "\t\t\t\tORDER BY salary", []⟩ = .error message →
        (Job.findAll db (some ⟨.undefined, .undefined, .str "false"⟩)).2.result
          = .error (.store message))
    ∧ (Job.findAll
          (fun call => if ["WHERE", "ORDER"] <:+: sqlWords call.text
            then .error "syntax error at or near \"ORDER\"" else .ok [])
          (some ⟨.undefined, .undefined, .str "false"⟩)).2.result
        = .error (.store "syntax error at or near \"ORDER\"")
    ∧ (Job.findAll
          (fun call => if ["WHERE", "ORDER"] <:+: sqlWords call.text
            then .error "syntax error at or near \"ORDER\"" else .ok [])
          (some ⟨.undefined, .undefined, .undefined⟩)).2.result
        = .ok [] := by
  refine ⟨?_, rfl, by decide, rfl, fun message hm => dbQuery_error db _ message hm,
    rfl, rfl⟩
  by_cases hf : ((title.orElse minSalary).orElse (.str t)).truthy = true
  · rw [job_findAll_calls_filtered db _ hf]
    exact ⟨_, rfl, rfl, job_suffix_equity_iff title minSalary t⟩
  · rw [Bool.not_eq_true] at hf
    rw [job_findAll_calls_unfiltered db _ hf]
    refine ⟨_, rfl, rfl, ?_⟩
    have ht : t ≠ "true" := by
      intro h0
      subst h0
      rw [jsval_truthy_orElse] at hf
      have h1 : (JSVal.str "true").truthy = true := by decide
      rw [h1, Bool.or_true] at hf
      exact Bool.noConfusion hf
    simp only [ht, iff_false]
    exact not_suffix_append _ [] Job.unfilteredQuery.data 21 (by decide) (by decide) (by decide)

/-- C10 against the code, at `Job.findAll({hasEquity: true})`: the filtered branch is taken,
the strict comparison with the text `true` fails for the boolean, so `hasEquity` is reset to
false and no equity condition is emitted; the statement sent has an empty `WHERE` clause. The
same holds with any `title` and `minSalary`: no equity condition is among the emitted ones. -/
theorem job_findAll_hasEquity_boolean (db : Db) (title minSalary : JSVal) :
    (Job.findAll db (some ⟨.undefined, .undefined, .bool true⟩)).2.calls
        = [⟨"SELECT id, title, salary, equity, company_handle AS \"companyHandle\"\n"
              ++ "\t\t\t\tFROM jobs\n\t\t\t\tWHERE \n\t\t\t\t \n\t\t\t\t  \n"
              ++ "\t\t\t\tORDER BY salary", []⟩]
    ∧ sqlWords (Job.jobsResQuery (Job.normalized ⟨.undefined, .undefined, .bool true⟩))
        = ["SELECT", "id,", "title,", "salary,", "equity,", "company_handle", "AS",
           "\"companyHandle\"", "FROM", "jobs", "WHERE", "ORDER", "BY", "salary"]
    ∧ (Job.findAll db (some ⟨title, minSalary, .bool true⟩)).2.calls
        = [⟨Job.jobsResQuery (Job.normalized ⟨title, minSalary, .bool true⟩), []⟩]
    ∧ Job.hasEquityQuery (Job.normalized ⟨title, minSalary, .bool true⟩) = .null
    ∧ ¬ (("equity > 0.0\n\t\t\t\tORDER BY salary").data
          <:+ (Job.jobsResQuery (Job.normalized ⟨title, minSalary, .bool true⟩)).data) := by
  have hf : ((title.orElse minSalary).orElse (.bool true)).truthy = true := by
    rw [jsval_truthy_orElse]
    have h1 : (JSVal.bool true).truthy = true := rfl
    rw [h1, Bool.or_true]
  refine ⟨rfl, by decide, by rw [job_findAll_calls_filtered db _ hf], rfl, ?_⟩
  obtain ⟨x, hx⟩ := job_jobsResQuery_tail (Job.normalized ⟨title, minSalary, .bool true⟩)
  rw [hx]
  have e : (x ++ "  " ++ (if (Job.hasEquityQuery (Job.normalized
        ⟨title, minSalary, .bool true⟩)).truthy then (Job.hasEquityQuery (Job.normalized
        ⟨title, minSalary, .bool true⟩)).toStr else "") ++ "\n\t\t\t\tORDER BY salary").data
      = x.data ++ "  \n\t\t\t\tORDER BY salary".data := by
    have h0 : Job.hasEquityQuery (Job.normalized ⟨title, minSalary, .bool true⟩) = .null := rfl
    rw [h0]
    simp [JSVal.truthy]
  rw [e]
  exact not_suffix_append _ _ _ 21 (by decide) (by decide) (by decide)

/-! ## Facts about `Number` and the conditions of `Job.findAll` -/

theorem stringToNumber_empty : stringToNumber "" = .int 0 := by decide

theorem truthy_of_number_truthy (v : JSVal) (h : (JSVal.num (Number v)).truthy = true) :
    v.truthy = true := by
  cases v with
  | undefined => exact absurd h (by decide)
  | null => exact absurd h (by decide)
  | bool b => cases b <;> first | rfl | exact absurd h (by decide)
  | num n => exact h
  | str s =>
    by_cases hs : s = ""
    · subst hs
      exact absurd h (by decide)
    · simp [JSVal.truthy, hs]
  | object text => rfl

theorem job_conditions_eq (q : JobQuery) :
    Job.conditions q
      = (if q.title.truthy = true then ["title LIKE '%" ++ q.title.toStr ++ "%'"] else [])
        ++ (if q.minSalary.truthy = true then ["salary >= " ++ q.minSalary.toStr] else [])
        ++ (if q.hasEquity.truthy = true then ["equity > 0.0"] else []) := by
  have ht := job_titleQuery_truthy q
  have hm := job_minSalaryQuery_truthy q
  have he := job_hasEquityQuery_truthy q
  cases h1 : q.title.truthy <;> cases h2 : q.minSalary.truthy <;>
    cases h3 : q.hasEquity.truthy <;>
    simp [Job.conditions, List.filter, ht, hm, he, h1, h2, h3] <;>
    simp [Job.titleQuery, Job.minSalaryQuery, Job.hasEquityQuery, h1, h2, h3, JSVal.toStr]

theorem job_normalized_hasEquity_truthy (q : JobQuery) :
    (Job.normalized q).hasEquity.truthy = decide (q.hasEquity = .str "true") := by
  by_cases h : q.hasEquity = .str "true" <;> simp [Job.normalized, h, JSVal.truthy]

theorem job_findAll_total (db : Db) (query : Option JobQuery) :
    ∃ call : DbCall, (Job.findAll db query).2.calls = [call]
      ∧ (Job.findAll db query).2.result = dbQuery db call ∧ call.values = [] := by
  cases query with
  | none => exact ⟨_, rfl, rfl, rfl⟩
  | some q =>
    by_cases h : ((q.title.orElse q.minSalary).orElse q.hasEquity).truthy = true
    · rw [job_findAll_calls_filtered db q h]
      exact ⟨_, rfl, rfl, rfl⟩
    · rw [Bool.not_eq_true] at h
      rw [job_findAll_calls_unfiltered db q h]
      exact ⟨_, rfl, rfl, rfl⟩

theorem job_minSalaryQuery_infix (q : JobQuery) (h : q.minSalary.truthy = true) :
    ("salary >= " ++ q.minSalary.toStr).data <:+: (Job.jobsResQuery q).data := by
  have hM : (if (Job.minSalaryQuery q).truthy = true then (Job.minSalaryQuery q).toStr
      else "") = "salary >= " ++ q.minSalary.toStr := by
    rw [job_minSalaryQuery_truthy, h, if_pos rfl]
    simp [Job.minSalaryQuery, h, JSVal.toStr]
  simp only [Job.jobsResQuery]
  iterate 5 apply infix_append_right
  rw [hM]
  exact infix_append_left _ _ _ (List.infix_refl _)

/-! ## models/jobs.js: the claims about `minSalary` -/

/-- C11 against the code, at `Job.findAll({minSalary: "0"})`: the text denotes the number 0,
it is truthy as text, so the filtered branch is taken and `minSalary` is coerced to `0`; that
number is falsy, so no `salary >=` condition is emitted and the statement sent has an empty
`WHERE` clause. With a title as well, `{title: "x", minSalary: "0"}`, the only condition is
the one on the title. The rest of the claim holds: whenever the number `n` the text denotes
is neither zero nor `NaN`, whatever `title` and `hasEquity` are, the filtered branch is
taken, `n` is left in `query.minSalary`, and the statement sent contains the condition
`salary >= n`, with `n` as a template literal prints it, among the conditions of its `WHERE`
clause; so it does for the texts `30`, `-5`, `1.5`, `1e3` and `0x10`. -/
theorem job_findAll_minSalary_text (db : Db) (title hasEquity : JSVal) (text : String) :
    Number (.str "0") = .int 0
    ∧ (Job.findAll db (some ⟨.undefined, .str "0", .undefined⟩)).1
        = some ⟨.undefined, .num (.int 0), .bool false⟩
    ∧ (Job.findAll db (some ⟨.undefined, .str "0", .undefined⟩)).2.calls
        = [⟨"SELECT id, title, salary, equity, company_handle AS \"companyHandle\"\n"
              ++ "\t\t\t\tFROM jobs\n\t\t\t\tWHERE \n\t\t\t\t \n\t\t\t\t  \n"
              ++ "\t\t\t\tORDER BY salary", []⟩]
    ∧ Job.conditions (Job.normalized ⟨.undefined, .str "0", .undefined⟩) = []
    ∧ (Job.findAll db (some ⟨.str "x", .str "0", .undefined⟩)).2.calls
        = [⟨"SELECT id, title, salary, equity, company_handle AS \"companyHandle\"\n"
              ++ "\t\t\t\tFROM jobs\n\t\t\t\tWHERE title LIKE '%x%'\n\t\t\t\t \n\t\t\t\t  \n"
              ++ "\t\t\t\tORDER BY salary", []⟩]
    ∧ Job.conditions (Job.normalized ⟨.str "x", .str "0", .undefined⟩) = ["title LIKE '%x%'"]
    ∧ ((JSVal.num (Number (.str text))).truthy = true →
        (Job.findAll db (some ⟨title, .str text, hasEquity⟩)).1
            = some (Job.normalized ⟨title, .str text, hasEquity⟩)
        ∧ (Job.normalized ⟨title, .str text, hasEquity⟩).minSalary
            = .num (Number (.str text))
        ∧ (Job.findAll db (some ⟨title, .str text, hasEquity⟩)).2.calls
            = [⟨Job.jobsResQuery (Job.normalized ⟨title, .str text, hasEquity⟩), []⟩]
        ∧ ("salary >= " ++ (Number (.str text)).toStr).data
            <:+: (Job.jobsResQuery (Job.normalized ⟨title, .str text, hasEquity⟩)).data
        ∧ ("salary >= " ++ (Number (.str text)).toStr)
            ∈ Job.conditions (Job.normalized ⟨title, .str text, hasEquity⟩)
        ∧ sqlWords (Job.jobsResQuery (Job.normalized ⟨title, .str text, hasEquity⟩))
            = ["SELECT", "id,", "title,", "salary,", "equity,", "company_handle", "AS",
               "\"companyHandle\"", "FROM", "jobs", "WHERE"]
              ++ sqlWords (" AND ".intercalate
                  (Job.conditions (Job.normalized ⟨title, .str text, hasEquity⟩)))
              ++ ["ORDER", "BY", "salary"])
    ∧ (Job.findAll db (some ⟨.undefined, .str "30", .undefined⟩)).2.calls
        = [⟨"SELECT id, title, salary, equity, company_handle AS \"companyHandle\"\n"
              ++ "\t\t\t\tFROM jobs\n\t\t\t\tWHERE \n\t\t\t\t salary >= 30\n\t\t\t\t  \n"
              ++ "\t\t\t\tORDER BY salary", []⟩]
    ∧ Job.conditions (Job.normalized ⟨.undefined, .str "30", .undefined⟩) = ["salary >= 30"]
    ∧ Job.conditions (Job.normalized ⟨.undefined, .str "-5", .undefined⟩) = ["salary >= -5"]
    ∧ Job.conditions (Job.normalized ⟨.undefined, .str "1.5", .undefined⟩) = ["salary >= 1.5"]
    ∧ Job.conditions (Job.normalized ⟨.undefined, .str "1e3", .undefined⟩)
        = ["salary >= 1000"]
    ∧ Job.conditions (Job.normalized ⟨.undefined, .str "0x10", .undefined⟩)
        = ["salary >= 16"] := by
  refine ⟨by decide, rfl, rfl, by decide, rfl, by decide, ?_, rfl, by decide, by decide,
    by decide, by decide, by decide⟩
  intro htr
  have hm : (Job.normalized ⟨title, .str text, hasEquity⟩).minSalary
      = .num (Number (.str text)) := rfl
  have hraw : (JSVal.str text).truthy = true := truthy_of_number_truthy _ htr
  have hf : ((title.orElse (.str text)).orElse hasEquity).truthy = true := by
    rw [jsval_truthy_orElse, jsval_truthy_orElse, hraw]
    simp
  have hmt : (Job.normalized ⟨title, .str text, hasEquity⟩).minSalary.truthy = true := by
    rw [hm]
    exact htr
  rw [job_findAll_calls_filtered db _ hf]
  refine ⟨rfl, rfl, rfl, ?_, ?_, job_words_jobsResQuery _⟩
  · exact job_minSalaryQuery_infix _ hmt
  · rw [job_conditions_eq, hmt]
    simp [hm, JSVal.toStr]

/-- C12 against the code, at `Job.findAll({minSalary: "abc"})`: the coercion gives `NaN`,
nothing is thrown, `NaN` is falsy so no condition is emitted, and the statement sent has an
empty `WHERE` clause; the call ends as the store does on that statement, with its rows when
the store answers. For every query, `Job.findAll` sends one statement and ends as the store
does on it: it has no path that ends in a bad-request error. -/
theorem job_findAll_minSalary_nan (db : Db) (query : Option JobQuery) :
    Number (.str "abc") = .nan
    ∧ (Job.findAll db (some ⟨.undefined, .str "abc", .undefined⟩)).1
        = some ⟨.undefined, .num .nan, .bool false⟩
    ∧ (Job.findAll db (some ⟨.undefined, .str "abc", .undefined⟩)).2.calls
        = [⟨"SELECT id, title, salary, equity, company_handle AS \"companyHandle\"\n"
              ++ "\t\t\t\tFROM jobs\n\t\t\t\tWHERE \n\t\t\t\t \n\t\t\t\t  \n"
              ++ "\t\t\t\tORDER BY salary", []⟩]
    ∧ (∀ rows : List Row,
        db ⟨"SELECT id, title, salary, equity, company_handle AS \"companyHandle\"\n"
              ++ "\t\t\t\tFROM jobs\n\t\t\t\tWHERE \n\t\t\t\t \n\t\t\t\t  \n"
              ++ "\t\t\t\tORDER BY salary", []⟩ = .ok rows →
        (Job.findAll db (some ⟨.undefined, .str "abc", .undefined⟩)).2.result = .ok rows)
    ∧ (∀ msg : String,
        (Job.findAll db (some ⟨.undefined, .str "abc", .undefined⟩)).2.result
          ≠ .error (.badRequest msg))
    ∧ (∃ call : DbCall, (Job.findAll db query).2.calls = [call]
        ∧ (Job.findAll db query).2.result = dbQuery db call ∧ call.values = []
        ∧ ∀ msg : String, (Job.findAll db query).2.result ≠ .error (.badRequest msg)) := by
  refine ⟨by decide, rfl, rfl, fun rows hr => dbQuery_ok db _ rows hr,
    fun msg => (dbQuery_ne_express db _ msg).1, ?_⟩
  obtain ⟨call, h1, h2, h3⟩ := job_findAll_total db query
  refine ⟨call, h1, h2, h3, fun msg => ?_⟩
  rw [h2]
  exact (dbQuery_ne_express db call msg).1

/-! ## models/jobs.js: the claims about the shape of the statement -/

/-- C13: whenever `Job.findAll` emits at least one condition, it sends the filtered statement,
which is, word for word, the projection, `FROM jobs WHERE`, the emitted conditions joined by
` AND `, and `ORDER BY salary`. The emitted conditions are, in this order, `title LIKE
'%<title>%'` when `title` is truthy, `salary >= <n>` when `n = Number(minSalary)` is truthy,
and `equity > 0.0` when `hasEquity` is the text `true`; the join puts one `AND` between
consecutive conditions and none before the first or after the last. -/
theorem job_findAll_where (db : Db) (q : JobQuery)
    (h : Job.conditions (Job.normalized q) ≠ []) :
    (Job.findAll db (some q)).2.calls = [⟨Job.jobsResQuery (Job.normalized q), []⟩]
    ∧ sqlWords (Job.jobsResQuery (Job.normalized q))
        = ["SELECT", "id,", "title,", "salary,", "equity,", "company_handle", "AS",
           "\"companyHandle\"", "FROM", "jobs", "WHERE"]
          ++ sqlWords (" AND ".intercalate (Job.conditions (Job.normalized q)))
          ++ ["ORDER", "BY", "salary"]
    ∧ Job.conditions (Job.normalized q)
        = (if q.title.truthy = true then ["title LIKE '%" ++ q.title.toStr ++ "%'"] else [])
          ++ (if (JSVal.num (Number q.minSalary)).truthy = true
              then ["salary >= " ++ (Number q.minSalary).toStr] else [])
          ++ (if q.hasEquity = .str "true" then ["equity > 0.0"] else [])
    ∧ (∀ a b c : String, " AND ".intercalate [a] = a
        ∧ " AND ".intercalate [a, b] = a ++ " AND " ++ b
        ∧ " AND ".intercalate [a, b, c] = a ++ " AND " ++ b ++ " AND " ++ c) := by
  have hc : Job.conditions (Job.normalized q)
      = (if q.title.truthy = true then ["title LIKE '%" ++ q.title.toStr ++ "%'"] else [])
        ++ (if (JSVal.num (Number q.minSalary)).truthy = true
            then ["salary >= " ++ (Number q.minSalary).toStr] else [])
        ++ (if q.hasEquity = .str "true" then ["equity > 0.0"] else []) := by
    rw [job_conditions_eq, job_normalized_hasEquity_truthy]
    simp [Job.normalized, JSVal.toStr]
  have hf : ((q.title.orElse q.minSalary).orElse q.hasEquity).truthy = true := by
    rw [jsval_truthy_orElse, jsval_truthy_orElse]
    by_cases h1 : q.title.truthy = true
    · simp [h1]
    · by_cases h2 : (JSVal.num (Number q.minSalary)).truthy = true
      · simp [truthy_of_number_truthy _ h2]
      · by_cases h3 : q.hasEquity = .str "true"
        · have h4 : q.hasEquity.truthy = true := by rw [h3]; decide
          simp [h4]
        · rw [hc] at h
          simp [h1, h2, h3] at h
  refine ⟨by rw [job_findAll_calls_filtered db q hf], job_words_jobsResQuery _, hc,
    fun a b c => ⟨rfl, rfl, rfl⟩⟩

/-- C13 at `{title: "x", minSalary: "1.5", hasEquity: "true"}`, three conditions and two
`AND`s, and at `{title: "x", hasEquity: "true"}`, a title with the equity flag and no
`minSalary`: two conditions, one `AND`. -/
theorem job_findAll_where_witness :
    (Job.findAll (fun _ => .ok []) (some ⟨.str "x", .str "1.5", .str "true"⟩)).2.calls
      = [⟨"SELECT id, title, salary, equity, company_handle AS \"companyHandle\"\n"
            ++ "\t\t\t\tFROM jobs\n\t\t\t\tWHERE title LIKE '%x%'\n"
            ++ "\t\t\t\tAND salary >= 1.5\n\t\t\t\tAND  equity > 0.0\n"
            ++ "\t\t\t\tORDER BY salary", []⟩]
    ∧ Job.conditions (Job.normalized ⟨.str "x", .str "1.5", .str "true"⟩)
      = ["title LIKE '%x%'", "salary >= 1.5", "equity > 0.0"]
    ∧ sqlWords (Job.jobsResQuery (Job.normalized ⟨.str "x", .str "1.5", .str "true"⟩))
        = ["SELECT", "id,", "title,", "salary,", "equity,", "company_handle", "AS",
           "\"companyHandle\"", "FROM", "jobs", "WHERE", "title", "LIKE", "'%x%'", "AND",
           "salary", ">=", "1.5", "AND", "equity", ">", "0.0", "ORDER", "BY", "salary"]
    ∧ Job.conditions (Job.normalized ⟨.str "x", .undefined, .str "true"⟩)
      = ["title LIKE '%x%'", "equity > 0.0"]
    ∧ sqlWords (Job.jobsResQuery (Job.normalized ⟨.str "x", .undefined, .str "true"⟩))
        = ["SELECT", "id,", "title,", "salary,", "equity,", "company_handle", "AS",
           "\"companyHandle\"", "FROM", "jobs", "WHERE", "title", "LIKE", "'%x%'", "AND",
           "equity", ">", "0.0", "ORDER", "BY", "salary"] := by
  obtain ⟨a1, a2, a3, -⟩ := job_findAll_where (fun _ => .ok [])
    ⟨.str "x", .str "1.5", .str "true"⟩ (by decide)
  obtain ⟨-, b2, -, -⟩ := job_findAll_where (fun _ => .ok [])
    ⟨.str "x", .undefined, .str "true"⟩ (by decide)
  have h3 : Job.conditions (Job.normalized ⟨.str "x", .str "1.5", .str "true"⟩)
      = ["title LIKE '%x%'", "salary >= 1.5", "equity > 0.0"] := by decide
  have h4 : Job.conditions (Job.normalized ⟨.str "x", .undefined, .str "true"⟩)
      = ["title LIKE '%x%'", "equity > 0.0"] := by decide
  refine ⟨?_, h3, ?_, h4, ?_⟩
  · rw [a1]
    rfl
  · rw [a2, h3]
    decide
  · rw [b2, h4]
    decide

/-- C14 against the code, at `Job.findAll({hasEquity: "false"})`: the text is truthy, so the
filtered branch is taken; after the assignments no condition is left, and the statement sent
is not the unfiltered listing but one whose `WHERE` is followed directly by `ORDER BY`. The
same statement is sent for `{minSalary: "0"}` and for `{hasEquity: "yes"}`. -/
theorem job_findAll_empty_where (db : Db) :
    Job.conditions (Job.normalized ⟨.undefined, .undefined, .str "false"⟩) = []
    ∧ (Job.findAll db (some ⟨.undefined, .undefined, .str "false"⟩)).2.calls
        = [⟨"SELECT id, title, salary, equity, company_handle AS \"companyHandle\"\n"
              ++ "\t\t\t\tFROM jobs\n\t\t\t\tWHERE \n\t\t\t\t \n\t\t\t\t  \n"
              ++ "\t\t\t\tORDER BY salary", []⟩]
    ∧ (Job.findAll db (some ⟨.undefined, .undefined, .str "false"⟩)).2.calls
        ≠ [⟨Job.unfilteredQuery, []⟩]
    ∧ sqlWords (Job.jobsResQuery (Job.normalized ⟨.undefined, .undefined, .str "false"⟩))
        = ["SELECT", "id,", "title,", "salary,", "equity,", "company_handle", "AS",
           "\"companyHandle\"", "FROM", "jobs", "WHERE", "ORDER", "BY", "salary"]
    ∧ (Job.findAll db (some ⟨.undefined, .str "0", .undefined⟩)).2.calls
        = (Job.findAll db (some ⟨.undefined, .undefined, .str "false"⟩)).2.calls
    ∧ (Job.findAll db (some ⟨.undefined, .undefined, .str "yes"⟩)).2.calls
        = (Job.findAll db (some ⟨.undefined, .undefined, .str "false"⟩)).2.calls := by
  refine ⟨by decide, rfl, ?_, by decide, rfl, rfl⟩
  have h : (Job.findAll db (some ⟨.undefined, .undefined, .str "false"⟩)).2.calls
      = [⟨Job.jobsResQuery (Job.normalized ⟨.undefined, .undefined, .str "false"⟩), []⟩] := rfl
  rw [h]
  intro h1
  have h2 := congrArg (fun l => l.map fun c => sqlWords c.text) h1
  revert h2
  decide

theorem company_companiesResQuery_tail (q : CompanyQuery) :
    ∃ x : String, Company.companiesResQuery q = x ++ "\n\t\t\tORDER BY name" :=
  ⟨_, rfl⟩

theorem job_jobsResQuery_head (q : JobQuery) :
    ∃ y : String, Job.jobsResQuery q
      = "SELECT id, title, salary, equity, company_handle AS \"companyHandle\"\n" ++ y := by
  simp only [Job.jobsResQuery, String.append_assoc]
  exact ⟨_, rfl⟩

theorem suffix_of_append (x s t : String) (h : s.data <:+ t.data) :
    s.data <:+ (x ++ t).data := by
  obtain ⟨y, hy⟩ := h
  exact ⟨x.data ++ y, by simp [hy]⟩

/-- C15: for every query, absent or not and whatever its fields hold, the one statement
`Company.findAll` sends ends with `ORDER BY name` and the one statement `Job.findAll` sends
ends with `ORDER BY salary`, on the filtered and on the unfiltered branch; in both, these are
the last three words of the statement. -/
theorem findAll_order_by (db : Db) (companyQuery : Option CompanyQuery)
    (jobQuery : Option JobQuery) :
    (∃ call : DbCall, (Company.findAll db companyQuery).calls = [call]
        ∧ "ORDER BY name".data <:+ call.text.data
        ∧ ["ORDER", "BY", "name"] <:+ sqlWords call.text)
    ∧ (∃ call : DbCall, (Job.findAll db jobQuery).2.calls = [call]
        ∧ "ORDER BY salary".data <:+ call.text.data
        ∧ ["ORDER", "BY", "salary"] <:+ sqlWords call.text) := by
  have hcu : "ORDER BY name".data <:+ Company.unfilteredQuery.data
      ∧ ["ORDER", "BY", "name"] <:+ sqlWords Company.unfilteredQuery := by
    refine ⟨by decide, ?_⟩
    rw [company_words_unfilteredQuery]
    decide
  have hcf : ∀ q : CompanyQuery, "ORDER BY name".data <:+ (Company.companiesResQuery q).data
      ∧ ["ORDER", "BY", "name"] <:+ sqlWords (Company.companiesResQuery q) := by
    intro q
    obtain ⟨x, hx⟩ := company_companiesResQuery_tail q
    refine ⟨?_, ?_⟩
    · rw [hx]
      exact suffix_of_append _ _ _ (by decide)
    · rw [company_words_companiesResQuery]
      exact List.suffix_append _ _
  have hju : "ORDER BY salary".data <:+ Job.unfilteredQuery.data
      ∧ ["ORDER", "BY", "salary"] <:+ sqlWords Job.unfilteredQuery := by
    refine ⟨by decide, by decide⟩
  have hjf : ∀ q : JobQuery, "ORDER BY salary".data <:+ (Job.jobsResQuery q).data
      ∧ ["ORDER", "BY", "salary"] <:+ sqlWords (Job.jobsResQuery q) := by
    intro q
    have hx : ∃ x : String, Job.jobsResQuery q = x ++ "\n\t\t\t\tORDER BY salary" := ⟨_, rfl⟩
    obtain ⟨x, hx⟩ := hx
    refine ⟨?_, ?_⟩
    · rw [hx]
      exact suffix_of_append _ _ _ (by decide)
    · rw [job_words_jobsResQuery]
      exact List.suffix_append _ _
  refine ⟨?_, ?_⟩
  · cases companyQuery with
    | none => exact ⟨_, rfl, hcu.1, hcu.2⟩
    | some q =>
      by_cases h : ((q.name.orElse q.minEmployees).orElse q.maxEmployees).truthy = true
      · rw [company_findAll_calls_filtered db q h]
        exact ⟨_, rfl, (hcf q).1, (hcf q).2⟩
      · rw [Bool.not_eq_true] at h
        rw [company_findAll_calls_unfiltered db q h]
        exact ⟨_, rfl, hcu.1, hcu.2⟩
  · cases jobQuery with
    | none => exact ⟨_, rfl, hju.1, hju.2⟩
    | some q =>
      by_cases h : ((q.title.orElse q.minSalary).orElse q.hasEquity).truthy = true
      · rw [job_findAll_calls_filtered db q h]
        exact ⟨_, rfl, (hjf _).1, (hjf _).2⟩
      · rw [Bool.not_eq_true] at h
        rw [job_findAll_calls_unfiltered db q h]
        exact ⟨_, rfl, hju.1, hju.2⟩

/-- C16: for every query, the statement `Job.findAll` sends begins with the same line
`SELECT id, title, salary, equity, company_handle AS "companyHandle"`, and its first words
are that projection followed by `FROM jobs`, on the filtered and on the unfiltered branch
alike; no filter adds or removes a column. -/
theorem job_findAll_projection (db : Db) (query : Option JobQuery) :
    ∃ call : DbCall, (Job.findAll db query).2.calls = [call]
      ∧ "SELECT id, title, salary, equity, company_handle AS \"companyHandle\"\n".data
          <+: call.text.data
      ∧ ["SELECT", "id,", "title,", "salary,", "equity,", "company_handle", "AS",
         "\"companyHandle\"", "FROM", "jobs"] <+: sqlWords call.text := by
  have hu : "SELECT id, title, salary, equity, company_handle AS \"companyHandle\"\n".data
        <+: Job.unfilteredQuery.data
      ∧ ["SELECT", "id,", "title,", "salary,", "equity,", "company_handle", "AS",
         "\"companyHandle\"", "FROM", "jobs"] <+: sqlWords Job.unfilteredQuery := by
    refine ⟨by decide, by decide⟩
  have hf : ∀ q : JobQuery,
      "SELECT id, title, salary, equity, company_handle AS \"companyHandle\"\n".data
        <+: (Job.jobsResQuery q).data
      ∧ ["SELECT", "id,", "title,", "salary,", "equity,", "company_handle", "AS",
         "\"companyHandle\"", "FROM", "jobs"] <+: sqlWords (Job.jobsResQuery q) := by
    intro q
    obtain ⟨y, hy⟩ := job_jobsResQuery_head q
    refine ⟨?_, ?_⟩
    · rw [hy, String.data_append]
      exact List.prefix_append _ _
    · rw [job_words_jobsResQuery]
      exact ⟨"WHERE" :: (sqlWords (" AND ".intercalate (Job.conditions q))
        ++ ["ORDER", "BY", "salary"]), by simp⟩
  cases query with
  | none => exact ⟨_, rfl, hu.1, hu.2⟩
  | some q =>
    by_cases h : ((q.title.orElse q.minSalary).orElse q.hasEquity).truthy = true
    · rw [job_findAll_calls_filtered db q h]
      exact ⟨_, rfl, (hf _).1, (hf _).2⟩
    · rw [Bool.not_eq_true] at h
      rw [job_findAll_calls_unfiltered db q h]
      exact ⟨_, rfl, hu.1, hu.2⟩

/-- C17 against the code, at `Job.findAll({title: "jt2"})` and `Company.findAll({name:
"jt2"})`: the condition emitted is `title LIKE '%jt2%'` (resp. `name LIKE '%jt2%'`). For every
filter text the condition is the column, the operator `LIKE`, and the text as given between
`'%` and `%'`: neither side is folded to one letter case and no case-insensitive operator is
used. -/
theorem findAll_like_as_given (db : Db) (t : String) (a b : JSVal) :
    Job.titleQuery (Job.normalized ⟨.str t, a, b⟩)
        = (if t = "" then .null else .str ("title LIKE '%" ++ t ++ "%'"))
    ∧ Company.nameQuery ⟨.str t, a, b⟩
        = (if t = "" then .null else .str ("name LIKE '%" ++ t ++ "%'"))
    ∧ (Job.findAll db (some ⟨.str "jt2", .undefined, .undefined⟩)).2.calls
        = [⟨"SELECT id, title, salary, equity, company_handle AS \"companyHandle\"\n"
              ++ "\t\t\t\tFROM jobs\n\t\t\t\tWHERE title LIKE '%jt2%'\n\t\t\t\t \n\t\t\t\t  \n"
              ++ "\t\t\t\tORDER BY salary", []⟩]
    ∧ Job.conditions (Job.normalized ⟨.str "jt2", .undefined, .undefined⟩)
        = ["title LIKE '%jt2%'"]
    ∧ (Company.findAll db (some ⟨.str "jt2", .undefined, .undefined⟩)).calls
        = [⟨"SELECT handle, \n                name, \n                description,\n\t\t\t\t\n"
              ++ "                logo_url AS \"logoUrl\"\n            FROM companies\n"
              ++ "\t\t\tWHERE name LIKE '%jt2%'\n\t\t\t \n\t\t\t \n\t\t\tORDER BY name", []⟩]
    ∧ Company.conditions ⟨.str "jt2", .undefined, .undefined⟩ = ["name LIKE '%jt2%'"] := by
  refine ⟨?_, ?_, rfl, by decide, rfl, by decide⟩
  · by_cases h : t = "" <;> simp [Job.titleQuery, Job.normalized, JSVal.truthy, JSVal.toStr, h]
  · by_cases h : t = "" <;> simp [Company.nameQuery, JSVal.truthy, JSVal.toStr, h]

/-- C18 against the code, at `q = {hasEquity: "true"}` passed to `Job.findAll` twice: the
first call sends the statement with the condition `equity > 0.0` and leaves `q` as
`{minSalary: NaN, hasEquity: true}`; the second call, on that object, resets the boolean to
false and sends a statement with an empty `WHERE` clause. The two statements differ. -/
theorem job_findAll_twice (db : Db) :
    (Job.findAll db (some ⟨.undefined, .undefined, .str "true"⟩)).1
        = some ⟨.undefined, .num .nan, .bool true⟩
    ∧ (Job.findAll db (some ⟨.undefined, .undefined, .str "true"⟩)).2.calls
        = [⟨"SELECT id, title, salary, equity, company_handle AS \"companyHandle\"\n"
              ++ "\t\t\t\tFROM jobs\n\t\t\t\tWHERE \n\t\t\t\t \n\t\t\t\t  equity > 0.0\n"
              ++ "\t\t\t\tORDER BY salary", []⟩]
    ∧ (Job.findAll db (Job.findAll db (some ⟨.undefined, .undefined, .str "true"⟩)).1).2.calls
        = [⟨"SELECT id, title, salary, equity, company_handle AS \"companyHandle\"\n"
              ++ "\t\t\t\tFROM jobs\n\t\t\t\tWHERE \n\t\t\t\t \n\t\t\t\t  \n"
              ++ "\t\t\t\tORDER BY salary", []⟩]
    ∧ (Job.findAll db (Job.findAll db (some ⟨.undefined, .undefined, .str "true"⟩)).1).1
        = some ⟨.undefined, .num .nan, .bool false⟩
    ∧ (Job.findAll db (Job.findAll db (some ⟨.undefined, .undefined, .str "true"⟩)).1).2.calls
        ≠ (Job.findAll db (some ⟨.undefined, .undefined, .str "true"⟩)).2.calls := by
  have h1 : (Job.findAll db (some ⟨.undefined, .undefined, .str "true"⟩)).2.calls
      = [⟨Job.jobsResQuery ⟨.undefined, .num .nan, .bool true⟩, []⟩] := rfl
  have h2 : (Job.findAll db
        (Job.findAll db (some ⟨.undefined, .undefined, .str "true"⟩)).1).2.calls
      = [⟨Job.jobsResQuery ⟨.undefined, .num .nan, .bool false⟩, []⟩] := rfl
  refine ⟨rfl, rfl, rfl, rfl, ?_⟩
  rw [h1, h2]
  intro h
  have h3 := congrArg (fun l => l.map fun c => sqlWords c.text) h
  revert h3
  decide

/-! ## Facts about the comparison of numbers -/

theorem bitLength_pos : ∀ (fuel n : Nat), n ≤ fuel → n ≠ 0 → 1 ≤ bitLength fuel n := by
  intro fuel n h hn
  cases fuel with
  | zero => omega
  | succ fuel => simp [bitLength, hn]

theorem bitLength_spec : ∀ (fuel n : Nat), n ≤ fuel → n ≠ 0 →
    2 ^ (bitLength fuel n - 1) ≤ n := by
  intro fuel
  induction fuel with
  | zero => intro n h hn; omega
  | succ fuel ih =>
    intro n h hn
    simp only [bitLength, hn, if_false, Nat.add_sub_cancel]
    by_cases h2 : n / 2 = 0
    · have e : bitLength fuel (n / 2) = 0 := by
        rw [h2]
        cases fuel <;> simp [bitLength]
      rw [e]
      simp
      omega
    · have hle : n / 2 ≤ fuel := by omega
      have h1 := ih (n / 2) hle h2
      have h3 := bitLength_pos fuel (n / 2) hle h2
      obtain ⟨k, hk⟩ : ∃ k, bitLength fuel (n / 2) = k + 1 := ⟨bitLength fuel (n / 2) - 1, by omega⟩
      rw [hk] at h1 ⊢
      simp only [Nat.add_sub_cancel] at h1
      rw [Nat.pow_succ]
      omega

theorem floorLog2_one_le (p : Nat) (hp : p ≠ 0) : 2 ^ (floorLog2 p 1).toNat ≤ p := by
  have h1 := bitLength_spec p p (Nat.le_refl p) hp
  have h2 := bitLength_pos p p (Nat.le_refl p) hp
  have h3 : bitLength 1 1 = 1 := by decide
  have hle : (floorLog2 p 1).toNat ≤ bitLength p p - 1 := by
    unfold floorLog2
    simp only [h3]
    split <;> omega
  exact Nat.le_trans (Nat.pow_le_pow_right (by decide) hle) h1

theorem roundNear_one (p m : Nat) (u : Int) (hp : p ≠ 0) (h : roundNear p 1 = some (m, u)) :
    ∃ (M : Nat) (U : Int),
      ((∃ a : Nat, U = -(a : Int) ∧ M = p * 2 ^ a) ∨ (∃ b : Nat, U = (b : Int) + 1 ∧ 1 ≤ M))
      ∧ ((M = 2 ^ 53 ∧ m = 2 ^ 52 ∧ u = U + 1) ∨ (M ≠ 2 ^ 53 ∧ m = M ∧ u = U)) := by
  unfold roundNear at h
  simp only [hp, if_false, Nat.one_mul] at h
  generalize hU : max (floorLog2 p 1 - 52) (-1074) = U at h
  generalize hM : (if pow2 U < 2 * (p * pow2 (-U) % pow2 U)
      ∨ pow2 U = 2 * (p * pow2 (-U) % pow2 U) ∧ p * pow2 (-U) / pow2 U % 2 = 1
      then p * pow2 (-U) / pow2 U + 1 else p * pow2 (-U) / pow2 U) = M at h
  have hMU : (∃ a : Nat, U = -(a : Int) ∧ M = p * 2 ^ a)
      ∨ (∃ b : Nat, U = (b : Int) + 1 ∧ 1 ≤ M) := by
    by_cases hu0 : U ≤ 0
    · left
      refine ⟨(-U).toNat, by omega, ?_⟩
      have e1 : pow2 U = 1 := by
        have : U.toNat = 0 := by omega
        simp [pow2, this]
      rw [e1] at hM
      simp only [Nat.div_one, Nat.mod_one, Nat.mul_zero] at hM
      simp only [pow2] at hM
      rw [← hM]
      simp
    · right
      refine ⟨(U - 1).toNat, by omega, ?_⟩
      have e1 : pow2 (-U) = 1 := by
        have : (-U).toNat = 0 := by omega
        simp [pow2, this]
      have hfl := floorLog2_one_le p hp
      have hle : U.toNat ≤ (floorLog2 p 1).toNat := by omega
      have hden : pow2 U ≤ p := Nat.le_trans (Nat.pow_le_pow_right (by decide) hle) hfl
      have hpos : 0 < pow2 U := Nat.two_pow_pos _
      rw [e1, Nat.mul_one] at hM
      have hm0 : 1 ≤ p / pow2 U := (Nat.one_le_div_iff hpos).mpr hden
      rw [← hM]
      split <;> omega
  refine ⟨M, U, hMU, ?_⟩
  · have hM0 : M ≠ 0 := by
      rcases hMU with ⟨a, -, e⟩ | ⟨b, -, e⟩
      · rw [e]
        exact Nat.mul_ne_zero hp (Nat.pos_iff_ne_zero.mp (Nat.two_pow_pos _))
      · omega
    rw [if_neg hM0] at h
    by_cases hc : M = 2 ^ 53
    · left
      rw [if_pos hc] at h
      split at h
      · exact absurd h (by simp)
      · simp only [Option.some.injEq, Prod.mk.injEq] at h
        exact ⟨hc, h.1.symm, h.2.symm⟩
    · right
      rw [if_neg hc] at h
      split at h
      · exact absurd h (by simp)
      · simp only [Option.some.injEq, Prod.mk.injEq] at h
        exact ⟨hc, h.1.symm, h.2.symm⟩

theorem jsnum_lt_zero_of_neg (n : Int) (h : n < 0) : JSNum.lt (.int n) (.int 0) = true := by
  have h0 : JSNum.int 0 = .fin false 0 0 := by decide
  have hp : n.natAbs ≠ 0 := by omega
  rw [h0]
  simp only [JSNum.int, roundSigned, h, decide_True]
  cases hr : roundNear n.natAbs 1 with
  | none => rfl
  | some mu =>
    obtain ⟨m, u⟩ := mu
    have hm : m ≠ 0 := by
      obtain ⟨M, U, hMU, hc⟩ := roundNear_one _ m u hp hr
      rcases hc with ⟨-, e, -⟩ | ⟨-, e, -⟩
      · rw [e]
        decide
      · rw [e]
        rcases hMU with ⟨a, -, e⟩ | ⟨b, -, e⟩
        · rw [e]
          exact Nat.mul_ne_zero hp (Nat.pos_iff_ne_zero.mp (Nat.two_pow_pos _))
        · omega
    simp [JSNum.lt, hm]

theorem two_pow_52 : (2 : Nat) ^ 52 = 4503599627370496 := by norm_num

theorem two_pow_53 : (2 : Nat) ^ 53 = 9007199254740992 := by norm_num

theorem jsnum_one_lt_of_lt (n : Int) (h : 1 < n) : JSNum.lt (.int 1) (.int n) = true := by
  have h1 : JSNum.int 1 = .fin false 4503599627370496 (-52) := by decide
  have hp : n.natAbs ≠ 0 := by omega
  have hp2 : 2 ≤ n.natAbs := by omega
  have hn : ¬ n < 0 := by omega
  rw [h1]
  simp only [JSNum.int, roundSigned, hn, decide_False]
  cases hr : roundNear n.natAbs 1 with
  | none => rfl
  | some mu =>
    obtain ⟨m, u⟩ := mu
    simp only [JSNum.lt, magLt, decide_eq_true_eq, pow2]
    obtain ⟨M, U, hMU, hc⟩ := roundNear_one _ m u hp hr
    rcases hMU with ⟨a, hU, hM⟩ | ⟨b, hU, hM⟩
    · rcases hc with ⟨hc, em, eu⟩ | ⟨hc, em, eu⟩
      · have ha : a < 53 := by
          by_contra hge
          have hle : 2 ^ 53 ≤ 2 ^ a := Nat.pow_le_pow_right (by decide) (by omega)
          have hpos : 0 < 2 ^ a := Nat.two_pow_pos _
          rw [hM] at hc
          nlinarith
        subst hU
        rw [em, eu]
        have e1 : ((-52 : Int) - (-(a : Int) + 1)).toNat = 0 := by omega
        have e2 : (-(a : Int) + 1 - (-52 : Int)).toNat = 53 - a := by omega
        rw [e1, e2, Nat.pow_zero, Nat.mul_one, two_pow_52]
        have hpow : 2 ^ 1 ≤ 2 ^ (53 - a) := Nat.pow_le_pow_right (by decide) (by omega)
        omega
      · subst hU
        rw [em, eu, hM]
        by_cases ha : 52 ≤ a
        · have e1 : ((-52 : Int) - -(a : Int)).toNat = a - 52 := by omega
          have e2 : (-(a : Int) - (-52 : Int)).toNat = 0 := by omega
          rw [e1, e2]
          have e3 : 4503599627370496 * 2 ^ (a - 52) = 2 ^ a := by
            rw [← two_pow_52, ← Nat.pow_add]
            congr 1
            omega
          rw [e3, Nat.pow_zero, Nat.mul_one]
          have hpos : 0 < 2 ^ a := Nat.two_pow_pos _
          nlinarith
        · have e1 : ((-52 : Int) - -(a : Int)).toNat = 0 := by omega
          have e2 : (-(a : Int) - (-52 : Int)).toNat = 52 - a := by omega
          rw [e1, e2, Nat.pow_zero, Nat.mul_one, Nat.mul_assoc, ← Nat.pow_add]
          have e3 : a + (52 - a) = 52 := by omega
          rw [e3, two_pow_52]
          omega
    · subst hU
      have hpow : 2 ^ 53 ≤ 2 ^ (b + 53) := Nat.pow_le_pow_right (by decide) (by omega)
      have hpow2 : 2 ^ 53 ≤ 2 ^ (b + 54) := Nat.pow_le_pow_right (by decide) (by omega)
      rcases hc with ⟨hc, em, eu⟩ | ⟨hc, em, eu⟩
      · rw [em, eu]
        have e1 : ((-52 : Int) - ((b : Int) + 1 + 1)).toNat = 0 := by omega
        have e2 : ((b : Int) + 1 + 1 - (-52 : Int)).toNat = b + 54 := by omega
        rw [e1, e2, Nat.pow_zero, Nat.mul_one, two_pow_52]
        rw [two_pow_53] at hpow2
        omega
      · rw [em, eu]
        have e1 : ((-52 : Int) - ((b : Int) + 1)).toNat = 0 := by omega
        have e2 : ((b : Int) + 1 - (-52 : Int)).toNat = b + 53 := by omega
        rw [e1, e2, Nat.pow_zero, Nat.mul_one]
        rw [two_pow_53] at hpow
        nlinarith

/-! ## models/jobs.js: create -/

theorem job_create_cases (db : Db) (data : JobData) :
    ((db (Job.duplicateCheckCall data) = .ok []
        ∧ typeOf data.title = "string"
        ∧ typeOf data.salary = "number" ∧ (Number data.salary).lt (.int 0) = false
        ∧ typeOf data.equity = "number" ∧ (Number data.equity).lt (.int 0) = false
        ∧ JSNum.lt (.int 1) (Number data.equity) = false
        ∧ ∃ r rs, db (Job.companyResCall data) = .ok (r :: rs))
      ∧ (Job.create db data).calls
          = [Job.duplicateCheckCall data, Job.companyResCall data, Job.insertCall data]
      ∧ ((∃ rows, db (Job.insertCall data) = .ok rows
            ∧ (Job.create db data).result = .ok rows.head?)
          ∨ (∃ message, db (Job.insertCall data) = .error message
            ∧ (Job.create db data).result = .error (.store message))))
    ∨ (¬ (db (Job.duplicateCheckCall data) = .ok []
          ∧ typeOf data.title = "string"
          ∧ typeOf data.salary = "number" ∧ (Number data.salary).lt (.int 0) = false
          ∧ typeOf data.equity = "number" ∧ (Number data.equity).lt (.int 0) = false
          ∧ JSNum.lt (.int 1) (Number data.equity) = false
          ∧ ∃ r rs, db (Job.companyResCall data) = .ok (r :: rs))
        ∧ (((Job.create db data).calls = [Job.duplicateCheckCall data]
              ∧ ((∃ msg : String, (Job.create db data).result = .error (.badRequest msg)
                    ∧ ∃ rows, db (Job.duplicateCheckCall data) = .ok rows)
                ∨ (∃ message : String, (Job.create db data).result = .error (.store message)
                    ∧ db (Job.duplicateCheckCall data) = .error message)))
          ∨ ((Job.create db data).calls
                = [Job.duplicateCheckCall data, Job.companyResCall data]
              ∧ (∃ rows, db (Job.duplicateCheckCall data) = .ok rows)
              ∧ ((∃ msg : String, (Job.create db data).result = .error (.badRequest msg)
                    ∧ ∃ rows, db (Job.companyResCall data) = .ok rows)
                ∨ (∃ message : String, (Job.create db data).result = .error (.store message)
                    ∧ db (Job.companyResCall data) = .error message))))) := by
  unfold Job.create
  cases h1 : db (Job.duplicateCheckCall data) with
  | error message => right; simp [dbQuery, h1]
  | ok rows1 =>
    cases rows1 with
    | cons r rs => right; simp [dbQuery, h1]
    | nil =>
      by_cases h2 : typeOf data.title = "string"
      · by_cases h3 : typeOf data.salary = "number"
        · cases h4 : (Number data.salary).lt (.int 0) with
          | true => right; simp [dbQuery, h1, h2, h3]
          | false =>
            by_cases h5 : typeOf data.equity = "number"
            · cases h6 : (Number data.equity).lt (.int 0) with
              | true => right; simp [dbQuery, h1, h2, h3, h5]
              | false =>
                cases h7 : JSNum.lt (.int 1) (Number data.equity) with
                | true => right; simp [dbQuery, h1, h2, h3, h5]
                | false =>
                  cases h8 : db (Job.companyResCall data) with
                  | error message => right; simp [dbQuery, h1, h2, h3, h5, h8]
                  | ok rows2 =>
                    cases rows2 with
                    | nil => right; simp [dbQuery, h1, h2, h3, h5, h8]
                    | cons r rs =>
                      left
                      cases h9 : db (Job.insertCall data) with
                      | error message => simp [dbQuery, h1, h2, h3, h5, h8, h9]
                      | ok rows3 => simp [dbQuery, h1, h2, h3, h5, h8, h9]
            · right; simp [dbQuery, h1, h2, h3, h5]
        · right; simp [dbQuery, h1, h2, h3]
      · right; simp [dbQuery, h1, h2]

theorem job_insertCall_ne (data : JobData) :
    Job.insertCall data ≠ Job.duplicateCheckCall data
    ∧ Job.insertCall data ≠ Job.companyResCall data := by
  refine ⟨?_, ?_⟩ <;> intro h <;> have h1 := congrArg DbCall.text h <;>
    simp only [Job.insertCall, Job.duplicateCheckCall, Job.companyResCall] at h1 <;>
    revert h1 <;> decide

set_option maxRecDepth 100000 in
theorem job_create_nan_run :
    Job.create
          (fun call =>
            if call = Job.companyResCall
                ⟨.num (.int 5), .str "JT5", .num (.int 0), .num .nan, .str "c2"⟩
            then .ok [[("handle", .str "c2")]]
            else if call = Job.insertCall
                ⟨.num (.int 5), .str "JT5", .num (.int 0), .num .nan, .str "c2"⟩
            then .ok [[("id", .num (.int 5)), ("title", .str "JT5"), ("salary", .num (.int 0)),
                   ("equity", .str "NaN"), ("companyHandle", .str "c2")]]
            else .ok [])
          ⟨.num (.int 5), .str "JT5", .num (.int 0), .num .nan, .str "c2"⟩
        = ⟨[Job.duplicateCheckCall
              ⟨.num (.int 5), .str "JT5", .num (.int 0), .num .nan, .str "c2"⟩,
            Job.companyResCall
              ⟨.num (.int 5), .str "JT5", .num (.int 0), .num .nan, .str "c2"⟩,
            Job.insertCall
              ⟨.num (.int 5), .str "JT5", .num (.int 0), .num .nan, .str "c2"⟩],
           .ok (some [("id", .num (.int 5)), ("title", .str "JT5"), ("salary", .num (.int 0)),
                      ("equity", .str "NaN"), ("companyHandle", .str "c2")])⟩ := by
  rfl

set_option maxRecDepth 100000 in
theorem jsnum_lt_fractions :
    JSNum.lt (.int 1) (.dec false 15 (-1)) = true ∧ JSNum.lt (.int 1) (.dec false 2 (-1)) = false
    ∧ JSNum.lt (.dec false 2 (-1)) (.int 0) = false
    ∧ JSNum.lt (.dec true 2 (-1)) (.int 0) = true := by
  refine ⟨by decide, by decide, by decide, by decide⟩

set_option maxRecDepth 100000 in
theorem job_create_badJob_run :
    Job.create (fun _ => .ok [])
        ⟨.num (.int 5), .str "JT5", .num (.int 0), .num (.int 40), .str "c2"⟩
      = ⟨[Job.duplicateCheckCall
            ⟨.num (.int 5), .str "JT5", .num (.int 0), .num (.int 40), .str "c2"⟩],
          .error (.badRequest "Invalid equity: 40")⟩ := by
  rfl

theorem job_create_key (db : Db) (data : JobData) :
    (Job.insertCall data ∈ (Job.create db data).calls
        ↔ (db (Job.duplicateCheckCall data) = .ok []
            ∧ typeOf data.title = "string"
            ∧ typeOf data.salary = "number" ∧ (Number data.salary).lt (.int 0) = false
            ∧ typeOf data.equity = "number" ∧ (Number data.equity).lt (.int 0) = false
            ∧ JSNum.lt (.int 1) (Number data.equity) = false
            ∧ ∃ r rs, db (Job.companyResCall data) = .ok (r :: rs)))
    ∧ ((∃ row, (Job.create db data).result = .ok row)
        ↔ (Job.insertCall data ∈ (Job.create db data).calls
            ∧ ∃ rows, db (Job.insertCall data) = .ok rows))
    ∧ ((∃ msg : String, (Job.create db data).result = .error (.badRequest msg))
        ↔ (Job.insertCall data ∉ (Job.create db data).calls
            ∧ ∀ call ∈ (Job.create db data).calls, ∃ rows, db call = .ok rows)) := by
  have hne := job_insertCall_ne data
  rcases job_create_cases db data with ⟨ha, hc, hr⟩ | ⟨hn, hc⟩
  · have hmem : Job.insertCall data ∈ (Job.create db data).calls := by
      rw [hc]
      simp
    refine ⟨⟨fun _ => ha, fun _ => hmem⟩, ?_, ?_⟩
    · rcases hr with ⟨rows, h1, h2⟩ | ⟨message, h1, h2⟩
      · exact ⟨fun _ => ⟨hmem, rows, h1⟩, fun _ => ⟨_, h2⟩⟩
      · refine ⟨fun ⟨row, h3⟩ => ?_, fun ⟨_, rows, h3⟩ => ?_⟩
        · rw [h2] at h3
          exact absurd h3 (by simp)
        · rw [h1] at h3
          exact absurd h3 (by simp)
    · refine ⟨fun ⟨msg, h3⟩ => ?_, fun ⟨h3, _⟩ => absurd hmem h3⟩
      rcases hr with ⟨rows, h1, h2⟩ | ⟨message, h1, h2⟩ <;> rw [h2] at h3 <;>
        exact absurd h3 (by simp)
  · have hnot : Job.insertCall data ∉ (Job.create db data).calls := by
      rcases hc with ⟨hc, -⟩ | ⟨hc, -, -⟩ <;> rw [hc] <;> simp [hne.1, hne.2]
    refine ⟨⟨fun h => absurd h hnot, fun h => absurd h hn⟩, ?_, ?_⟩
    · refine ⟨fun ⟨row, h3⟩ => ?_, fun ⟨h3, _⟩ => absurd h3 hnot⟩
      rcases hc with ⟨-, ⟨msg, h4, -⟩ | ⟨message, h4, -⟩⟩
        | ⟨-, -, ⟨msg, h4, -⟩ | ⟨message, h4, -⟩⟩ <;>
        rw [h4] at h3 <;> exact absurd h3 (by simp)
    · rcases hc with ⟨hc, ⟨msg, h4, rows, h5⟩ | ⟨message, h4, h5⟩⟩
        | ⟨hc, ⟨rows1, h6⟩, ⟨msg, h4, rows, h5⟩ | ⟨message, h4, h5⟩⟩
      · refine ⟨fun _ => ⟨hnot, ?_⟩, fun _ => ⟨msg, h4⟩⟩
        rw [hc]
        intro call hmem
        rw [List.mem_singleton] at hmem
        rw [hmem]
        exact ⟨rows, h5⟩
      · refine ⟨fun ⟨msg, h3⟩ => ?_, fun ⟨_, h3⟩ => ?_⟩
        · rw [h4] at h3
          exact absurd h3 (by simp)
        · rw [hc] at h3
          obtain ⟨rows, h7⟩ := h3 _ (List.mem_singleton_self _)
          rw [h5] at h7
          exact absurd h7 (by simp)
      · refine ⟨fun _ => ⟨hnot, ?_⟩, fun _ => ⟨msg, h4⟩⟩
        rw [hc]
        intro call hmem
        simp only [List.mem_cons, List.mem_singleton, List.not_mem_nil, or_false] at hmem
        rcases hmem with hmem | hmem <;> rw [hmem]
        · exact ⟨rows1, h6⟩
        · exact ⟨rows, h5⟩
      · refine ⟨fun ⟨msg, h3⟩ => ?_, fun ⟨_, h3⟩ => ?_⟩
        · rw [h4] at h3
          exact absurd h3 (by simp)
        · rw [hc] at h3
          obtain ⟨rows, h7⟩ := h3 (Job.companyResCall data) (by simp)
          rw [h5] at h7
          exact absurd h7 (by simp)

/-- C19 against the code, at `Job.create({id: 5, title: "JT5", salary: 0, equity: NaN,
companyHandle: "c2"})` on a store with no job 5 and with company `c2`: `typeof NaN` is
`"number"` and `NaN` compares false with both bounds, so every check passes and the `INSERT`
is sent. For all data and stores, the `INSERT` is sent exactly when the duplicate check finds
no row, all three field checks pass and the company lookup finds a row; the call returns
exactly when the `INSERT` is sent and the store answers it; and it ends in a bad-request
error exactly when the `INSERT` is not sent and the store answered the one or two `SELECT`s
made. In particular a title that is no string, a salary that is no number or is a negative
number, an equity that is no number or is a number below 0 or above 1, an existing id and a
missing company are all rejected without an `INSERT`, with a bad-request error whenever the
store answered the calls made; so is the `badJob` of the tests, with the message
`Invalid equity: 40` on a store that answers. Equity `1.5` is above the bound and `0.2` is
inside the bounds. -/
theorem job_create_rejections (db : Db) (data : JobData) :
    (Job.insertCall data ∈ (Job.create db data).calls
        ↔ (db (Job.duplicateCheckCall data) = .ok []
            ∧ typeOf data.title = "string"
            ∧ typeOf data.salary = "number" ∧ (Number data.salary).lt (.int 0) = false
            ∧ typeOf data.equity = "number" ∧ (Number data.equity).lt (.int 0) = false
            ∧ JSNum.lt (.int 1) (Number data.equity) = false
            ∧ ∃ r rs, db (Job.companyResCall data) = .ok (r :: rs)))
    ∧ ((∃ row, (Job.create db data).result = .ok row)
        ↔ (Job.insertCall data ∈ (Job.create db data).calls
            ∧ ∃ rows, db (Job.insertCall data) = .ok rows))
    ∧ ((∃ msg : String, (Job.create db data).result = .error (.badRequest msg))
        ↔ (Job.insertCall data ∉ (Job.create db data).calls
            ∧ ∀ call ∈ (Job.create db data).calls, ∃ rows, db call = .ok rows))
    ∧ ((typeOf data.title ≠ "string"
          ∨ typeOf data.salary ≠ "number"
          ∨ (∃ n : Int, data.salary = .num (.int n) ∧ n < 0)
          ∨ (Number data.salary).lt (.int 0) = true
          ∨ typeOf data.equity ≠ "number"
          ∨ (∃ n : Int, data.equity = .num (.int n) ∧ (n < 0 ∨ 1 < n))
          ∨ (Number data.equity).lt (.int 0) = true
          ∨ JSNum.lt (.int 1) (Number data.equity) = true
          ∨ (∃ r rs, db (Job.duplicateCheckCall data) = .ok (r :: rs))
          ∨ db (Job.companyResCall data) = .ok [])
        → Job.insertCall data ∉ (Job.create db data).calls
          ∧ (∀ row, (Job.create db data).result ≠ .ok row)
          ∧ ((∀ call ∈ (Job.create db data).calls, ∃ rows, db call = .ok rows)
              → ∃ msg : String, (Job.create db data).result = .error (.badRequest msg)))
    ∧ (Job.insertCall ⟨.num (.int 5), .str "JT5", .num (.int 0), .num (.int 40), .str "c2"⟩
            ∉ (Job.create db
                ⟨.num (.int 5), .str "JT5", .num (.int 0), .num (.int 40), .str "c2"⟩).calls
        ∧ ((∀ call ∈ (Job.create db
                ⟨.num (.int 5), .str "JT5", .num (.int 0), .num (.int 40), .str "c2"⟩).calls,
              ∃ rows, db call = .ok rows)
            → ∃ msg : String,
                (Job.create db
                  ⟨.num (.int 5), .str "JT5", .num (.int 0), .num (.int 40), .str "c2"⟩).result
                  = .error (.badRequest msg)))
    ∧ Job.create (fun _ => .ok [])
          ⟨.num (.int 5), .str "JT5", .num (.int 0), .num (.int 40), .str "c2"⟩
        = ⟨[Job.duplicateCheckCall
              ⟨.num (.int 5), .str "JT5", .num (.int 0), .num (.int 40), .str "c2"⟩],
            .error (.badRequest "Invalid equity: 40")⟩
    ∧ (JSNum.lt (.int 1) (.dec false 15 (-1)) = true ∧ JSNum.lt (.int 1) (.dec false 2 (-1)) = false
        ∧ JSNum.lt (.dec false 2 (-1)) (.int 0) = false ∧ JSNum.lt (.dec true 2 (-1)) (.int 0) = true)
    ∧ Job.create
          (fun call =>
            if call = Job.companyResCall
                ⟨.num (.int 5), .str "JT5", .num (.int 0), .num .nan, .str "c2"⟩
            then .ok [[("handle", .str "c2")]]
            else if call = Job.insertCall
                ⟨.num (.int 5), .str "JT5", .num (.int 0), .num .nan, .str "c2"⟩
            then .ok [[("id", .num (.int 5)), ("title", .str "JT5"), ("salary", .num (.int 0)),
                   ("equity", .str "NaN"), ("companyHandle", .str "c2")]]
            else .ok [])
          ⟨.num (.int 5), .str "JT5", .num (.int 0), .num .nan, .str "c2"⟩
        = ⟨[Job.duplicateCheckCall
              ⟨.num (.int 5), .str "JT5", .num (.int 0), .num .nan, .str "c2"⟩,
            Job.companyResCall
              ⟨.num (.int 5), .str "JT5", .num (.int 0), .num .nan, .str "c2"⟩,
            Job.insertCall
              ⟨.num (.int 5), .str "JT5", .num (.int 0), .num .nan, .str "c2"⟩],
           .ok (some [("id", .num (.int 5)), ("title", .str "JT5"), ("salary", .num (.int 0)),
                      ("equity", .str "NaN"), ("companyHandle", .str "c2")])⟩ := by
  obtain ⟨k1, k2, k3⟩ := job_create_key db data
  refine ⟨k1, k2, k3, ?_, ?_, job_create_badJob_run, jsnum_lt_fractions, job_create_nan_run⟩
  · intro hp
    have hnot : Job.insertCall data ∉ (Job.create db data).calls := by
      rw [k1]
      rintro ⟨a1, a2, a3, a4, a5, a6, a7, r, rs, a8⟩
      rcases hp with hp | hp | ⟨n, hs, hlt⟩ | hp | hp | ⟨n, he, hlt⟩ | hp | hp | ⟨r', rs', hp⟩ | hp
      · exact hp a2
      · exact hp a3
      · rw [hs] at a4
        have := jsnum_lt_zero_of_neg n hlt
        simp only [Number] at a4
        rw [this] at a4
        exact Bool.noConfusion a4
      · rw [hp] at a4
        exact Bool.noConfusion a4
      · exact hp a5
      · rw [he] at a6 a7
        simp only [Number] at a6 a7
        rcases hlt with hlt | hlt
        · rw [jsnum_lt_zero_of_neg n hlt] at a6
          exact Bool.noConfusion a6
        · rw [jsnum_one_lt_of_lt n hlt] at a7
          exact Bool.noConfusion a7
      · rw [hp] at a6
        exact Bool.noConfusion a6
      · rw [hp] at a7
        exact Bool.noConfusion a7
      · rw [hp] at a1
        exact absurd a1 (by simp)
      · rw [hp] at a8
        exact absurd a8 (by simp)
    refine ⟨hnot, fun row hrow => hnot (k2.mp ⟨row, hrow⟩).1, fun hall => k3.mpr ⟨hnot, hall⟩⟩
  · obtain ⟨b1, -, b3⟩ := job_create_key db
      ⟨.num (.int 5), .str "JT5", .num (.int 0), .num (.int 40), .str "c2"⟩
    have hnot : Job.insertCall ⟨.num (.int 5), .str "JT5", .num (.int 0), .num (.int 40),
        .str "c2"⟩ ∉ (Job.create db
          ⟨.num (.int 5), .str "JT5", .num (.int 0), .num (.int 40), .str "c2"⟩).calls := by
      rw [b1]
      rintro ⟨-, -, -, -, -, -, a7, -⟩
      revert a7
      decide
    exact ⟨hnot, fun hall => b3.mpr ⟨hnot, hall⟩⟩

/-! ## models/jobs.js and models/company.js: update -/

theorem job_update_calls (db : Db) (id : JSVal) (data : JSObject) (h : data ≠ []) :
    (Job.update db id data).calls
      = [⟨"UPDATE jobs SET "
            ++ ", ".intercalate (cols (Object.keys data) (objectLiteral []))
            ++ "\n        WHERE id = " ++ ("$" ++ toString (data.length + 1))
            ++ "\n        RETURNING id,\n                  title,\n                  salary, "
            ++ "\n                  equity, \n                  company_handle AS \"companyHandle\"",
          Object.values data ++ [id]⟩] := by
  unfold Job.update
  rw [sqlForPartialUpdate_ok _ _ h]
  simp only [Object.values, List.length_map]
  split
  · rfl
  · split <;> rfl

theorem company_update_calls (db : Db) (handle : JSVal) (data : JSObject) (h : data ≠ []) :
    (Company.update db handle data).calls
      = [⟨"UPDATE companies \n                      SET "
            ++ ", ".intercalate (cols (Object.keys data)
                (objectLiteral [("numEmployees", .str "num_employees"),
                  ("logoUrl", .str "logo_url")]))
            ++ " \n                      WHERE handle = " ++ ("$" ++ toString (data.length + 1))
            ++ " \n                      RETURNING handle, \n                                name, "
            ++ "\n                                description, "
            ++ "\n                                num_employees AS \"numEmployees\", "
            ++ "\n                                logo_url AS \"logoUrl\"",
          Object.values data ++ [handle]⟩] := by
  unfold Company.update
  rw [sqlForPartialUpdate_ok _ _ h]
  simp only [Object.values, List.length_map]
  split
  · rfl
  · split <;> rfl

theorem values_append_getElem? (data : JSObject) (key : JSVal) :
    (Object.values data ++ [key]).length = data.length + 1
    ∧ (∀ (i : Nat) (hi : i < data.length),
        (Object.values data ++ [key])[i]? = some (data.get ⟨i, hi⟩).2)
    ∧ (Object.values data ++ [key])[data.length]? = some key := by
  refine ⟨by simp [Object.values], ?_, ?_⟩
  · intro i hi
    rw [List.getElem?_append_left (by simpa [Object.values] using hi)]
    simp [Object.values, List.getElem?_eq_getElem hi]
  · rw [List.getElem?_append_right (by simp [Object.values])]
    simp [Object.values]

theorem columnName_objectLiteral_nil (k : String) (h : objectPrototypeGet k = .undefined) :
    columnName (objectLiteral []) k = k := by
  apply columnName_of_undefined
  simp [objectLiteral, h]

set_option maxRecDepth 100000 in
theorem job_update_constructor_calls (db : Db) :
    (Job.update db (.num (.int 1)) [("constructor", .num (.int 1))]).calls
      = [⟨"UPDATE jobs SET \"function Object() \x7b [native code] \x7d\"=$1\n"
            ++ "        WHERE id = $2\n        RETURNING id,\n                  title,\n"
            ++ "                  salary, \n                  equity, \n"
            ++ "                  company_handle AS \"companyHandle\"",
          [.num (.int 1), .num (.int 1)]⟩] := by
  have h := job_update_calls db (.num (.int 1)) [("constructor", .num (.int 1))] (by decide)
  rw [h]
  rfl

/-- C20 against the code, at `Job.update(1, {constructor: 1})`: the table `{}` that
`Job.update` passes has no entry of its own, yet reading `constructor` from it gives the
function inherited from `Object.prototype`, so the key is translated and the `SET` clause
names the column `function Object() { [native code] }`, not `constructor`. The rest of the
claim holds: for update data with `n ≥ 1` keys, `Job.update(id, data)` and
`Company.update(handle, data)` each send one `UPDATE` statement. Its `SET` clause is the
`setCols` of `sqlForPartialUpdate` on the data and the table of the method, that is the join
of `"<column i>"=$<i+1>` over the keys; its `WHERE` clause uses the placeholder `$(n+1)`; its
parameter list is the `n` values in key order followed by the id or handle, `n+1` entries
in all, so the value of key `i` is bound to `$(i+1)` and the id or handle to `$(n+1)`.
`Company.update` translates `numEmployees` to `num_employees` and `logoUrl` to `logo_url` and
leaves `name` and `description` as they are; `Job.update` leaves `title`, `salary` and
`equity` as they are, as it does every key for which reading the table gives `undefined`. -/
theorem update_statement (db : Db) (key : JSVal) (data : JSObject) (h : data ≠ []) :
    (∃ res, sqlForPartialUpdate data (objectLiteral []) = .ok res
      ∧ (Job.update db key data).calls
          = [⟨"UPDATE jobs SET " ++ res.setCols
                ++ "\n        WHERE id = " ++ ("$" ++ toString (data.length + 1))
                ++ "\n        RETURNING id,\n                  title,\n                  salary, "
                ++ "\n                  equity, \n"
                ++ "                  company_handle AS \"companyHandle\"",
              res.values ++ [key]⟩]
      ∧ res.setCols = ", ".intercalate (List.ofFn fun i : Fin data.length =>
          "\"" ++ columnName (objectLiteral []) (data.get i).1 ++ "\"=$" ++ toString (i.1 + 1))
      ∧ res.values = data.map Prod.snd)
    ∧ (∃ res, sqlForPartialUpdate data
          (objectLiteral [("numEmployees", .str "num_employees"), ("logoUrl", .str "logo_url")])
          = .ok res
      ∧ (Company.update db key data).calls
          = [⟨"UPDATE companies \n                      SET " ++ res.setCols
                ++ " \n                      WHERE handle = "
                ++ ("$" ++ toString (data.length + 1))
                ++ " \n                      RETURNING handle, \n"
                ++ "                                name, "
                ++ "\n                                description, "
                ++ "\n                                num_employees AS \"numEmployees\", "
                ++ "\n                                logo_url AS \"logoUrl\"",
              res.values ++ [key]⟩]
      ∧ res.setCols = ", ".intercalate (List.ofFn fun i : Fin data.length =>
          "\"" ++ columnName (objectLiteral [("numEmployees", .str "num_employees"),
                    ("logoUrl", .str "logo_url")]) (data.get i).1
            ++ "\"=$" ++ toString (i.1 + 1))
      ∧ res.values = data.map Prod.snd)
    ∧ ((data.map Prod.snd ++ [key]).length = data.length + 1
      ∧ (∀ (i : Nat) (hi : i < data.length),
          (data.map Prod.snd ++ [key])[i]? = some (data.get ⟨i, hi⟩).2)
      ∧ (data.map Prod.snd ++ [key])[data.length]? = some key)
    ∧ (columnName (objectLiteral [("numEmployees", .str "num_employees"),
          ("logoUrl", .str "logo_url")]) "numEmployees" = "num_employees"
      ∧ columnName (objectLiteral [("numEmployees", .str "num_employees"),
          ("logoUrl", .str "logo_url")]) "logoUrl" = "logo_url"
      ∧ columnName (objectLiteral [("numEmployees", .str "num_employees"),
          ("logoUrl", .str "logo_url")]) "name" = "name"
      ∧ columnName (objectLiteral [("numEmployees", .str "num_employees"),
          ("logoUrl", .str "logo_url")]) "description" = "description")
    ∧ (columnName (objectLiteral []) "title" = "title"
      ∧ columnName (objectLiteral []) "salary" = "salary"
      ∧ columnName (objectLiteral []) "equity" = "equity"
      ∧ ∀ k : String, objectPrototypeGet k = .undefined →
          columnName (objectLiteral []) k = k)
    ∧ (Job.update db (.num (.int 1)) [("constructor", .num (.int 1))]).calls
        = [⟨"UPDATE jobs SET \"function Object() \x7b [native code] \x7d\"=$1\n"
              ++ "        WHERE id = $2\n        RETURNING id,\n                  title,\n"
              ++ "                  salary, \n                  equity, \n"
              ++ "                  company_handle AS \"companyHandle\"",
            [.num (.int 1), .num (.int 1)]⟩]
    ∧ columnName (objectLiteral []) "constructor" ≠ "constructor"
    ∧ sqlForPartialUpdate [("constructor", .num (.int 1))] (objectLiteral [])
        = .ok ⟨"\"function Object() \x7b [native code] \x7d\"=$1", [.num (.int 1)]⟩ := by
  refine ⟨⟨_, sqlForPartialUpdate_ok data _ h, ?_, ?_, rfl⟩,
    ⟨_, sqlForPartialUpdate_ok data _ h, ?_, ?_, rfl⟩,
    values_append_getElem? data key,
    ⟨by decide, by decide, by decide, by decide⟩,
    ⟨by decide, by decide, by decide, columnName_objectLiteral_nil⟩,
    job_update_constructor_calls db, by decide, rfl⟩
  · rw [job_update_calls db key data h]
    simp only [String.append_assoc]
    rfl
  · simp only [cols_eq_ofFn]
  · rw [company_update_calls db key data h]
    simp only [String.append_assoc]
    rfl
  · simp only [cols_eq_ofFn]

set_option maxRecDepth 100000 in
/-- C20 at `Job.update(7, {title: "T", salary: 5})` and `Company.update("c1", {name: "N",
numEmployees: 3})`: two assignments, `$3` in the `WHERE` clause, three parameters. -/
theorem update_statement_witness :
    (Job.update (fun _ => .ok []) (.num (.int 7))
        [("title", .str "T"), ("salary", .num (.int 5))]).calls
      = [⟨"UPDATE jobs SET \"title\"=$1, \"salary\"=$2\n        WHERE id = $3\n"
            ++ "        RETURNING id,\n                  title,\n                  salary, \n"
            ++ "                  equity, \n                  company_handle AS \"companyHandle\"",
          [.str "T", .num (.int 5), .num (.int 7)]⟩]
    ∧ (Company.update (fun _ => .ok []) (.str "c1")
        [("name", .str "N"), ("numEmployees", .num (.int 3))]).calls
      = [⟨"UPDATE companies \n                      SET \"name\"=$1, \"num_employees\"=$2 \n"
            ++ "                      WHERE handle = $3 \n"
            ++ "                      RETURNING handle, \n                                name, \n"
            ++ "                                description, \n"
            ++ "                                num_employees AS \"numEmployees\", \n"
            ++ "                                logo_url AS \"logoUrl\"",
          [.str "N", .num (.int 3), .str "c1"]⟩] := by
  obtain ⟨⟨r1, h1, c1, -, -⟩, -, -, -, -⟩ := update_statement (fun _ => .ok []) (.num (.int 7))
    [("title", .str "T"), ("salary", .num (.int 5))] (by decide)
  obtain ⟨-, ⟨r2, h2, c2, -, -⟩, -, -, -⟩ := update_statement (fun _ => .ok []) (.str "c1")
    [("name", .str "N"), ("numEmployees", .num (.int 3))] (by decide)
  have e1 : sqlForPartialUpdate [("title", .str "T"), ("salary", .num (.int 5))]
      (objectLiteral []) = .ok ⟨"\"title\"=$1, \"salary\"=$2", [.str "T", .num (.int 5)]⟩ := rfl
  have e2 : sqlForPartialUpdate [("name", .str "N"), ("numEmployees", .num (.int 3))]
      (objectLiteral [("numEmployees", .str "num_employees"), ("logoUrl", .str "logo_url")])
      = .ok ⟨"\"name\"=$1, \"num_employees\"=$2", [.str "N", .num (.int 3)]⟩ := rfl
  rw [e1] at h1
  rw [e2] at h2
  injection h1 with h1
  injection h2 with h2
  subst h1
  subst h2
  exact ⟨c1, c2⟩
